import Mathlib

/-! The Xwayland surface state machine of libweston/desktop/xwayland.c

A shallow embedding of `src/libweston/desktop/xwayland.c`.

* The C record `struct weston_desktop_xwayland_surface` becomes the structure of the same
  name.  Its pointer fields `xwayland`, `desktop`, `surface`, `client_interface` and the
  destroy listener are written once in `create_surface` and never again, so they are left
  out; `view` is an optional view handle (`none` is `NULL`).
* Everything the C code does to its collaborators (libweston, the desktop-surface wrapper,
  the shell, the X window manager) is recorded, in program order, in `World.trace`.
* The shell is called synchronously by every `weston_desktop_api_*` function and may call
  back into this file before returning.  A `Shell` maps the trace seen so far (ending with
  the notification being delivered) to the list of calls it makes back.
* A failed `assert` stops the program: it is recorded in `World.failed` and nothing runs
  after it.  `free(surface)` is recorded in `World.freed`.
* `int32_t` subtraction is two-complement wrap-around (`sub32`).  Coordinates that are `double` in
  libweston (`weston_coord`) are carried as integers; no arithmetic is done on them here.
-/

namespace Xwayland

/-- The enum `weston_desktop_xwayland_surface_state`. -/
inductive weston_desktop_xwayland_surface_state where
  | NONE
  | TOPLEVEL
  | MAXIMIZED
  | FULLSCREEN
  | TRANSIENT
  | XWAYLAND
deriving DecidableEq, Repr

export weston_desktop_xwayland_surface_state (NONE TOPLEVEL MAXIMIZED FULLSCREEN TRANSIENT XWAYLAND)

/-- The struct `weston_geometry` (four `int32_t`). -/
structure weston_geometry where
  x : Int
  y : Int
  width : Int
  height : Int
deriving DecidableEq, Repr

/-- A `struct weston_surface *` handed in as a parent: its identity and whether
`weston_surface_is_desktop_surface` holds of it. -/
structure weston_surface where
  id : Nat
  is_desktop : Bool
deriving DecidableEq, Repr

/-- The struct `weston_coord_surface`: a coordinate and the surface whose space it is in. -/
structure weston_coord_surface where
  x : Int
  y : Int
  coordinate_space_id : Nat
deriving DecidableEq, Repr

/-- The struct `weston_pointer`, as far as `move` and `resize` read it. -/
structure weston_pointer where
  seat : Nat
  grab_serial : Nat
deriving DecidableEq, Repr

/-- The struct `weston_desktop_xwayland_surface` (fields written after creation). -/
structure weston_desktop_xwayland_surface where
  view : Option Nat
  next_geometry : weston_geometry
  has_next_geometry : Bool
  committed : Bool
  added : Bool
  state : weston_desktop_xwayland_surface_state
  prev_state : weston_desktop_xwayland_surface_state
  state_updated : Bool
deriving DecidableEq, Repr

/-- Every call the file makes into a collaborator, and every write through a view pointer. -/
inductive Event where
  | desktop_surface_create
  | add_destroy_listener
  | unlink_view (view : Option Nat)
  | view_destroy (view : Option Nat)
  | surface_unmap
  | unset_relative_to
  | api_surface_added
  | api_committed (sx sy : Int)
  | api_surface_removed
  | create_view (view : Nat)
  | layer_entry_insert (view : Nat)
  | view_set_is_mapped (view : Nat)
  | surface_map
  | set_relative_to (parent : Nat) (x y : Int)
  | set_geometry (g : weston_geometry)
  | view_update_transform (view : Option Nat)
  | send_configure (width height : Int)
  | send_fullscreen (fullscreen : Bool)
  | send_close
  | api_fullscreen_requested (fullscreen : Bool) (output : Option Nat)
  | api_set_xwayland_position (x y : Int)
  | api_set_parent (parent : Nat)
  | view_set_position (view : Option Nat) (x y : Int)
  | api_move (seat serial : Nat)
  | api_resize (seat serial edges : Nat)
  | surface_set_title (title : String)
  | api_maximized_requested (maximized : Bool)
  | api_minimized_requested
  | surface_set_pid (pid : Int)
  | api_get_position
  | list_remove_destroy_listener
  | free_surface
deriving DecidableEq, Repr

/-- The `assert`s of the file. -/
inductive Assertion where
  | state_not_none
  | parent_implies_transient
  | parent_implies_offset
  | leave_not_added
  | enter_not_added
  | offset_in_parent_space
deriving DecidableEq, Repr

/-- The members of `weston_desktop_xwayland_surface_internal_implementation` that the shell
reaches through the desktop-surface wrapper while one of its callbacks is running. -/
inductive ShellCall where
  | set_size (width height : Int)
  | set_fullscreen (fullscreen : Bool)
  | close
  | get_maximized
  | get_fullscreen
deriving DecidableEq, Repr

/-- The shell: given the trace up to and including the notification it is receiving, the
calls it makes back before returning. -/
abbrev Shell := List Event → List ShellCall

/-- A shell whose callbacks never call back. -/
def quietShell : Shell := fun _ => []

/-- The record together with the state of the collaborators that the file reads or writes. -/
structure World where
  surface : weston_desktop_xwayland_surface
  relative_to : Option (Nat × Int × Int)
  geometry : weston_geometry
  fresh_view : Nat
  trace : List Event
  failed : Option Assertion
  freed : Bool
deriving DecidableEq, Repr

/-- Record one call in the trace. -/
def emit (w : World) (e : Event) : World :=
  { w with trace := w.trace ++ [e] }

/-- A failed `assert`. -/
def assert_fail (w : World) (a : Assertion) : World :=
  { w with failed := some a }

/-- Sequencing: the rest of a function body runs only if no `assert` has failed. -/
def whenOk (w : World) (k : World → World) : World :=
  if w.failed.isSome then w else k w

/-- Wrap-around of an integer to `int32_t` (two-complement representation). -/
def wrap32 (z : Int) : Int :=
  (z + 2147483648) % 4294967296 - 2147483648

/-- Subtraction on `int32_t`. -/
def sub32 (a b : Int) : Int :=
  wrap32 (a - b)

/-- Modelled from the spec: `weston_surface_is_desktop_surface` (libweston-desktop, not in
this file) tells whether the parent is itself a shell-managed window. -/
def weston_surface_is_desktop_surface (wparent : weston_surface) : Bool :=
  wparent.is_desktop

/-- Modelled from the spec: `weston_surface_get_desktop_surface` (libweston-desktop) gives
the wrapper of a surface; wrappers are named by the surface they wrap. -/
def weston_surface_get_desktop_surface (wparent : weston_surface) : Nat :=
  wparent.id

/-- Modelled from the spec: `weston_desktop_surface_get_surface` (libweston-desktop) gives
back the surface a wrapper wraps. -/
def weston_desktop_surface_get_surface (dsurface : Nat) : Nat :=
  dsurface

/-- Modelled from the spec: `weston_desktop_surface_unset_relative_to` (libweston-desktop)
clears any parent relation of the wrapper. -/
def weston_desktop_surface_unset_relative_to (w : World) : World :=
  emit { w with relative_to := none } Event.unset_relative_to

/-- Modelled from the spec: `weston_desktop_surface_set_relative_to` (libweston-desktop)
establishes the parent relation with the given offset. -/
def weston_desktop_surface_set_relative_to (w : World) (parent : Nat) (x y : Int) : World :=
  emit { w with relative_to := some (parent, x, y) } (Event.set_relative_to parent x y)

/-- Modelled from the spec: `weston_desktop_surface_create_view` (libweston-desktop) creates
a new view; the handle is fresh. -/
def weston_desktop_surface_create_view (w : World) : World × Nat :=
  (emit { w with fresh_view := w.fresh_view + 1 } (Event.create_view w.fresh_view), w.fresh_view)

/-- Modelled from the spec: `weston_desktop_surface_get_geometry` (libweston-desktop) reads
the current live geometry of the wrapper. -/
def weston_desktop_surface_get_geometry (w : World) : weston_geometry :=
  w.geometry

/-- Modelled from the spec: `weston_desktop_surface_set_geometry` (libweston-desktop) applies
a geometry to the wrapper. -/
def weston_desktop_surface_set_geometry (w : World) (g : weston_geometry) : World :=
  emit { w with geometry := g } (Event.set_geometry g)

/-- The function `weston_desktop_xwayland_surface_set_size`. -/
def weston_desktop_xwayland_surface_set_size (w : World) (width height : Int) : World :=
  emit w (Event.send_configure width height)

/-- The function `weston_desktop_xwayland_surface_set_fullscreen`. -/
def weston_desktop_xwayland_surface_set_fullscreen (w : World) (fullscreen : Bool) : World :=
  let w1 : World :=
    { w with surface := { w.surface with state := if fullscreen then FULLSCREEN else TOPLEVEL } }
  let w2 : World := { w1 with surface := { w1.surface with state_updated := true } }
  emit w2 (Event.send_fullscreen fullscreen)

/-- The function `weston_desktop_xwayland_surface_close`. -/
def weston_desktop_xwayland_surface_close (w : World) : World :=
  emit w Event.send_close

/-- The function `weston_desktop_xwayland_surface_get_maximized`. -/
def weston_desktop_xwayland_surface_get_maximized (w : World) : Bool :=
  decide (w.surface.state = MAXIMIZED)

/-- The function `weston_desktop_xwayland_surface_get_fullscreen`. -/
def weston_desktop_xwayland_surface_get_fullscreen (w : World) : Bool :=
  decide (w.surface.state = FULLSCREEN)

/-- One call of the shell back into the file while a notification is being delivered. -/
def reenter (w : World) (c : ShellCall) : World :=
  match c with
  | ShellCall.set_size width height => weston_desktop_xwayland_surface_set_size w width height
  | ShellCall.set_fullscreen b => weston_desktop_xwayland_surface_set_fullscreen w b
  | ShellCall.close => weston_desktop_xwayland_surface_close w
  | ShellCall.get_maximized => w
  | ShellCall.get_fullscreen => w

/-- A `weston_desktop_api_*` call: the notification is recorded, then the shell runs and its
calls back into the file take effect before the call returns. -/
def notify_shell (sh : Shell) (w : World) (e : Event) : World :=
  (sh (w.trace ++ [e])).foldl reenter (emit w e)

/-- In `change_state`: the block `if (surface->state == XWAYLAND)` (leaving XWAYLAND). -/
def change_state_leave (w : World) : World :=
  if w.surface.state = XWAYLAND then
    if w.surface.added = true then assert_fail w Assertion.leave_not_added
    else
      let w1 := emit w (Event.unlink_view w.surface.view)
      let w2 := emit w1 (Event.view_destroy w.surface.view)
      let w3 : World := { w2 with surface := { w2.surface with view := none } }
      emit w3 Event.surface_unmap
  else w

/-- In `change_state`: the block `if (to_add) ... else if (surface->added) ...`. -/
def change_state_add (sh : Shell) (w : World) (to_add : Bool) : World :=
  if to_add = true then
    let w1 := weston_desktop_surface_unset_relative_to w
    let w2 := notify_shell sh w1 Event.api_surface_added
    let w3 : World := { w2 with surface := { w2.surface with added := true } }
    if w3.surface.state = NONE ∧ w3.surface.committed = true then
      notify_shell sh w3 (Event.api_committed 0 0)
    else w3
  else if w.surface.added = true then
    let w1 := notify_shell sh w Event.api_surface_removed
    { w1 with surface := { w1.surface with added := false } }
  else w

/-- In `change_state`: the block `if (state == XWAYLAND)` (entering XWAYLAND). -/
def change_state_enter (w : World)
    (state : weston_desktop_xwayland_surface_state) : World :=
  if state = XWAYLAND then
    if w.surface.added = true then assert_fail w Assertion.enter_not_added
    else
      let r := weston_desktop_surface_create_view w
      let w1 : World := { r.1 with surface := { r.1.surface with view := some r.2 } }
      let w2 := emit w1 (Event.layer_entry_insert r.2)
      let w3 := emit w2 (Event.view_set_is_mapped r.2)
      emit w3 Event.surface_map
  else w

/-- In `change_state`: the block `if (!surface->state_updated)`. -/
def change_state_assign (w : World)
    (state : weston_desktop_xwayland_surface_state) : World :=
  if w.surface.state_updated = false then
    { w with surface := { w.surface with state := state, state_updated := true } }
  else w

/-- In `change_state`: the block `if (parent != NULL)`. -/
def change_state_parent (w : World) (parent : Option Nat)
    (offset : Option weston_coord_surface) : World :=
  match parent, offset with
  | some p, some off =>
    if off.coordinate_space_id = weston_desktop_surface_get_surface p then
      weston_desktop_surface_set_relative_to w p off.x off.y
    else assert_fail w Assertion.offset_in_parent_space
  | _, _ => w

/-- The function `weston_desktop_xwayland_surface_change_state`. -/
def weston_desktop_xwayland_surface_change_state (sh : Shell) (w : World)
    (state : weston_desktop_xwayland_surface_state) (parent : Option Nat)
    (offset : Option weston_coord_surface) : World :=
  let to_add : Bool := parent.isNone && decide (state ≠ XWAYLAND)
  if state = NONE then assert_fail w Assertion.state_not_none
  else if parent.isSome = true ∧ state ≠ TRANSIENT then
    assert_fail w Assertion.parent_implies_transient
  else if parent.isSome = true ∧ offset.isNone = true then
    assert_fail w Assertion.parent_implies_offset
  else if to_add = true ∧ w.surface.added = true then
    { w with surface := { w.surface with state := state } }
  else
    let w1 : World := { w with surface := { w.surface with state_updated := false } }
    let w2 : World :=
      if w1.surface.state ≠ state then
        whenOk (whenOk (whenOk (change_state_leave w1)
          (fun v => change_state_add sh v to_add))
          (fun v => change_state_enter v state))
          (fun v => change_state_assign v state)
      else w1
    whenOk w2 (fun v => change_state_parent v parent offset)

/-- The function `weston_desktop_xwayland_surface_committed`. -/
def weston_desktop_xwayland_surface_committed (sh : Shell) (w : World) (sx sy : Int) : World :=
  let w1 : World := { w with surface := { w.surface with committed := true } }
  let r : World × Int × Int :=
    if w1.surface.has_next_geometry = true then
      let oldgeom := weston_desktop_surface_get_geometry w1
      let adj : Int × Int :=
        if w1.surface.state = w1.surface.prev_state then
          (sub32 sx (sub32 w1.surface.next_geometry.x oldgeom.x),
           sub32 sy (sub32 w1.surface.next_geometry.y oldgeom.y))
        else (sx, sy)
      let w2 : World := { w1 with surface := { w1.surface with prev_state := w1.surface.state } }
      let w3 : World := { w2 with surface := { w2.surface with has_next_geometry := false } }
      (weston_desktop_surface_set_geometry w3 w3.surface.next_geometry, adj)
    else (w1, sx, sy)
  let w4 : World :=
    if r.1.surface.added = true then notify_shell sh r.1 (Event.api_committed r.2.1 r.2.2)
    else r.1
  if w4.surface.state = XWAYLAND then emit w4 (Event.view_update_transform w4.surface.view)
  else w4

/-- The function `weston_desktop_xwayland_surface_destroy`. -/
def weston_desktop_xwayland_surface_destroy (sh : Shell) (w : World) : World :=
  let w1 := emit w Event.list_remove_destroy_listener
  let w2 := weston_desktop_surface_unset_relative_to w1
  let w3 : World :=
    if w2.surface.added = true then notify_shell sh w2 Event.api_surface_removed
    else if w2.surface.state = XWAYLAND then emit w2 (Event.unlink_view w2.surface.view)
    else w2
  { emit w3 Event.free_surface with freed := true }

/-- The record and its surroundings right after a successful `create_surface`: the record
is zeroed by `zalloc`, the wrapper is created, the destroy listener registered and the pid
set to 0. -/
def initial : World :=
  { surface :=
      { view := none
        next_geometry := ⟨0, 0, 0, 0⟩
        has_next_geometry := false
        committed := false
        added := false
        state := NONE
        prev_state := NONE
        state_updated := false }
    relative_to := none
    geometry := ⟨0, 0, 0, 0⟩
    fresh_view := 0
    trace := [Event.desktop_surface_create, Event.add_destroy_listener, Event.surface_set_pid 0]
    failed := none
    freed := false }

/-- The function `create_surface`: `none` is the `NULL` returned when `zalloc` or
`weston_desktop_surface_create` fails. -/
def create_surface (zalloc_ok surface_create_ok : Bool) : Option World :=
  if zalloc_ok = false then none
  else if surface_create_ok = false then none
  else some initial

/-- The function `set_toplevel`. -/
def set_toplevel (sh : Shell) (w : World) : World :=
  let prev_state := w.surface.state
  whenOk (weston_desktop_xwayland_surface_change_state sh w TOPLEVEL none none) (fun v =>
    if prev_state = FULLSCREEN then
      notify_shell sh v (Event.api_fullscreen_requested false none)
    else v)

/-- The function `set_toplevel_with_position`. -/
def set_toplevel_with_position (sh : Shell) (w : World) (x y : Int) : World :=
  whenOk (set_toplevel sh w) (fun v => notify_shell sh v (Event.api_set_xwayland_position x y))

/-- The function `set_parent`. -/
def set_parent (sh : Shell) (w : World) (wparent : weston_surface) : World :=
  if weston_surface_is_desktop_surface wparent = false then w
  else notify_shell sh w (Event.api_set_parent (weston_surface_get_desktop_surface wparent))

/-- The function `set_transient`. -/
def set_transient (sh : Shell) (w : World) (wparent : weston_surface)
    (offset : weston_coord_surface) : World :=
  if weston_surface_is_desktop_surface wparent = false then w
  else
    weston_desktop_xwayland_surface_change_state sh w TRANSIENT
      (some (weston_surface_get_desktop_surface wparent)) (some offset)

/-- The function `set_fullscreen`. -/
def set_fullscreen (sh : Shell) (w : World) (output : Option Nat) : World :=
  whenOk (weston_desktop_xwayland_surface_change_state sh w FULLSCREEN none none) (fun v =>
    notify_shell sh v (Event.api_fullscreen_requested true output))

/-- The function `set_xwayland`. -/
def set_xwayland (sh : Shell) (w : World) (x y : Int) : World :=
  whenOk (weston_desktop_xwayland_surface_change_state sh w XWAYLAND none none) (fun v =>
    emit v (Event.view_set_position v.surface.view x y))

/-- The function `move`: the world after the call and the returned `int`. -/
def move (sh : Shell) (w : World) (pointer : weston_pointer) : World × Int :=
  if w.surface.state = TOPLEVEL ∨ w.surface.state = MAXIMIZED ∨ w.surface.state = FULLSCREEN then
    (notify_shell sh w (Event.api_move pointer.seat pointer.grab_serial), 0)
  else (w, 0)

/-- The function `resize`: the world after the call and the returned `int`. -/
def resize (sh : Shell) (w : World) (pointer : weston_pointer) (edges : Nat) : World × Int :=
  if w.surface.state = TOPLEVEL ∨ w.surface.state = MAXIMIZED ∨ w.surface.state = FULLSCREEN then
    (notify_shell sh w (Event.api_resize pointer.seat pointer.grab_serial edges), 0)
  else (w, 0)

/-- The function `set_title`. -/
def set_title (w : World) (title : String) : World :=
  emit w (Event.surface_set_title title)

/-- The function `set_window_geometry`. -/
def set_window_geometry (w : World) (x y width height : Int) : World :=
  let w1 : World := { w with surface := { w.surface with has_next_geometry := true } }
  { w1 with surface := { w1.surface with next_geometry := ⟨x, y, width, height⟩ } }

/-- The function `set_maximized`. -/
def set_maximized (sh : Shell) (w : World) : World :=
  whenOk (weston_desktop_xwayland_surface_change_state sh w MAXIMIZED none none) (fun v =>
    notify_shell sh v (Event.api_maximized_requested true))

/-- The function `set_minimized`. -/
def set_minimized (sh : Shell) (w : World) : World :=
  notify_shell sh w Event.api_minimized_requested

/-- The function `set_pid`. -/
def set_pid (w : World) (pid : Int) : World :=
  emit w (Event.surface_set_pid pid)

/-- The function `get_position` (the record always has its wrapper once created, so the
shell is asked). -/
def get_position (sh : Shell) (w : World) : World :=
  notify_shell sh w Event.api_get_position

/-- One call into the file from outside: an entry of `weston_desktop_xwayland_interface`
(made by the X window manager) or a member of the internal implementation table (made
through the desktop-surface wrapper). -/
inductive Op where
  | set_toplevel
  | set_toplevel_with_position (x y : Int)
  | set_parent (wparent : weston_surface)
  | set_transient (wparent : weston_surface) (offset : weston_coord_surface)
  | set_fullscreen (output : Option Nat)
  | set_xwayland (x y : Int)
  | move (pointer : weston_pointer)
  | resize (pointer : weston_pointer) (edges : Nat)
  | set_title (title : String)
  | set_window_geometry (x y width height : Int)
  | set_maximized
  | set_minimized
  | set_pid (pid : Int)
  | get_position
  | committed (sx sy : Int)
  | shell_set_size (width height : Int)
  | shell_set_fullscreen (fullscreen : Bool)
  | shell_close
  | shell_get_maximized
  | shell_get_fullscreen
deriving DecidableEq, Repr

/-- Dispatch of one outside call. -/
def perform (sh : Shell) (w : World) (op : Op) : World :=
  match op with
  | Op.set_toplevel => set_toplevel sh w
  | Op.set_toplevel_with_position x y => set_toplevel_with_position sh w x y
  | Op.set_parent wparent => set_parent sh w wparent
  | Op.set_transient wparent offset => set_transient sh w wparent offset
  | Op.set_fullscreen output => set_fullscreen sh w output
  | Op.set_xwayland x y => set_xwayland sh w x y
  | Op.move pointer => (move sh w pointer).1
  | Op.resize pointer edges => (resize sh w pointer edges).1
  | Op.set_title title => set_title w title
  | Op.set_window_geometry x y width height => set_window_geometry w x y width height
  | Op.set_maximized => set_maximized sh w
  | Op.set_minimized => set_minimized sh w
  | Op.set_pid pid => set_pid w pid
  | Op.get_position => get_position sh w
  | Op.committed sx sy => weston_desktop_xwayland_surface_committed sh w sx sy
  | Op.shell_set_size width height => weston_desktop_xwayland_surface_set_size w width height
  | Op.shell_set_fullscreen b => weston_desktop_xwayland_surface_set_fullscreen w b
  | Op.shell_close => weston_desktop_xwayland_surface_close w
  | Op.shell_get_maximized => w
  | Op.shell_get_fullscreen => w

/-- One outside call on a live program: nothing runs after a failed `assert`. -/
def step (sh : Shell) (w : World) (op : Op) : World :=
  whenOk w (fun v => perform sh v op)

/-- The state reached from `create_surface` by a sequence of outside calls. -/
def run (sh : Shell) (ops : List Op) : World :=
  ops.foldl (step sh) initial

/-! ## Vocabulary of the specification -/

/-- The argument of a `set_fullscreen` call. -/
def fsArg (c : ShellCall) : Option Bool :=
  match c with
  | ShellCall.set_fullscreen b => some b
  | _ => none

/-- The argument of the last `set_fullscreen` among the calls back of the shell, if any. -/
def fsOverride : List ShellCall → Option Bool
  | [] => none
  | c :: cs =>
    match fsOverride cs with
    | some b => some b
    | none => fsArg c

/-- The calls to the X window manager produced by the calls back of the shell. -/
def callEvents : List ShellCall → List Event
  | [] => []
  | ShellCall.set_size width height :: cs => Event.send_configure width height :: callEvents cs
  | ShellCall.set_fullscreen b :: cs => Event.send_fullscreen b :: callEvents cs
  | ShellCall.close :: cs => Event.send_close :: callEvents cs
  | ShellCall.get_maximized :: cs => callEvents cs
  | ShellCall.get_fullscreen :: cs => callEvents cs

/-- The state left by the calls back of the shell: the last `set_fullscreen` wins. -/
def stateAfter (calls : List ShellCall)
    (s : weston_desktop_xwayland_surface_state) : weston_desktop_xwayland_surface_state :=
  match fsOverride calls with
  | none => s
  | some b => if b then FULLSCREEN else TOPLEVEL

/-- The three states of a window managed by the shell. -/
def isManaged (s : weston_desktop_xwayland_surface_state) : Bool :=
  decide (s = TOPLEVEL ∨ s = MAXIMIZED ∨ s = FULLSCREEN)

/-- The events the file emitted between two worlds of one execution. -/
def emitted (w w' : World) : List Event :=
  w'.trace.drop w.trace.length

/-- One step of the automaton that watches surface-added / surface-removed: the state is
whether an added is unmatched, `none` once the pairing has been broken. -/
def track (s : Option Bool) (e : Event) : Option Bool :=
  match e with
  | Event.api_surface_added =>
    match s with
    | some false => some true
    | _ => none
  | Event.api_surface_removed =>
    match s with
    | some true => some false
    | _ => none
  | _ => s

/-- The automaton run over a trace from the start. -/
def pairing (t : List Event) : Option Bool :=
  t.foldl track (some false)

/-- What holds of the record between any two outside calls. -/
structure Inv (w : World) : Prop where
  paired : pairing w.trace = some w.surface.added
  managed : w.surface.added = true → isManaged w.surface.state = true
  no_parent : w.surface.added = true → w.relative_to = none
  has_view : w.surface.state = XWAYLAND → w.surface.view.isSome = true

/-- The state after an optional `set_fullscreen` from the shell. -/
def overrideState (o : Option Bool)
    (s : weston_desktop_xwayland_surface_state) : weston_desktop_xwayland_surface_state :=
  match o with
  | none => s
  | some true => FULLSCREEN
  | some false => TOPLEVEL

/-- A shell that calls `set_fullscreen` back only on a window it currently holds: one it has
been told was added (the notification being delivered included) and not told was removed. -/
def Polite (sh : Shell) : Prop :=
  ∀ t b, ShellCall.set_fullscreen b ∈ sh t → pairing t = some true

/-- What holds besides `Inv` when the shell is `Polite`: a view exists only in state
XWAYLAND, and a parent relation only in states TRANSIENT and XWAYLAND. -/
structure Disc (w : World) : Prop where
  view_state : w.surface.view.isSome = true → w.surface.state = XWAYLAND
  parent_state : w.relative_to.isSome = true →
    w.surface.state = TRANSIENT ∨ w.surface.state = XWAYLAND

/-- The invariants together: `Inv` always, `Disc` under a side condition `P`. -/
def Good (P : Prop) (w : World) : Prop :=
  Inv w ∧ (P → Disc w)

/-- Whether the shell may deliver this outside call now: its `set_fullscreen` only for a
window it currently holds. -/
def opAllowed (w : World) (op : Op) : Bool :=
  match op with
  | Op.shell_set_fullscreen _ => decide (pairing w.trace = some true)
  | _ => true

/-- Along the run of `ops` from `w`, every call is allowed when it is made. -/
def politeRun (sh : Shell) : World → List Op → Bool
  | _, [] => true
  | w, op :: ops => opAllowed w op && politeRun sh (step sh w op) ops

/-- An event on a view handle: unlink, destroy, creation or insertion into the layer. -/
def isViewEvent (e : Event) : Bool :=
  match e with
  | Event.unlink_view _ => true
  | Event.view_destroy _ => true
  | Event.create_view _ => true
  | Event.layer_entry_insert _ => true
  | _ => false

/-- A view-creation event. -/
def isViewCreate (e : Event) : Bool :=
  match e with
  | Event.create_view _ => true
  | _ => false

/-- An insertion of a view into the overlay layer of xwayland. -/
def isLayerInsert (e : Event) : Bool :=
  match e with
  | Event.layer_entry_insert _ => true
  | _ => false

/-- A view-destruction event. -/
def isViewDestroy (e : Event) : Bool :=
  match e with
  | Event.view_destroy _ => true
  | _ => false

/-- A view-unlink event. -/
def isUnlinkView (e : Event) : Bool :=
  match e with
  | Event.unlink_view _ => true
  | _ => false

/-- A committed notification to the shell. -/
def isApiCommitted (e : Event) : Bool :=
  match e with
  | Event.api_committed _ _ => true
  | _ => false

/-- A call to the X window manager through `client_interface`. -/
def isClientEvent (e : Event) : Bool :=
  match e with
  | Event.send_configure _ _ => true
  | Event.send_fullscreen _ => true
  | Event.send_close => true
  | _ => false

/-- A surface-removed notification or a view unlink. -/
def isRemovedOrUnlink (e : Event) : Bool :=
  match e with
  | Event.api_surface_removed => true
  | Event.unlink_view _ => true
  | _ => false

/-- The range of `int32_t`. -/
def inInt32 (z : Int) : Prop :=
  -2147483648 ≤ z ∧ z ≤ 2147483647

/-- Surface-added and surface-removed strictly alternate along a trace; `held` tells whether an
added is unmatched so far, so a trace from the start is checked with `held = false`. -/
def alternates : Bool → List Event → Bool
  | _, [] => true
  | held, Event.api_surface_added :: t => !held && alternates true t
  | held, Event.api_surface_removed :: t => held && alternates false t
  | held, _ :: t => alternates held t

/-- An added toplevel window with the geometry (10,10,100,50) staged over the live geometry
(0,0,100,50). -/
def stagedWorld : World :=
  { initial with
    surface := { initial.surface with
      added := true
      state := TOPLEVEL
      prev_state := TOPLEVEL
      has_next_geometry := true
      next_geometry := ⟨10, 10, 100, 50⟩ }
    geometry := ⟨0, 0, 100, 50⟩ }

/-- A shell that calls `set_fullscreen(true)` back from inside its surface-removed callback. -/
def rudeShell : Shell := fun t =>
  if t.getLast? = some Event.api_surface_removed then [ShellCall.set_fullscreen true] else []

/-- A shell that calls `set_fullscreen(true)` back from every callback for a window it holds. -/
def eagerShell : Shell := fun t =>
  if pairing t = some true then [ShellCall.set_fullscreen true] else []

/-- A fullscreen-requested notification to the shell. -/
def isFullscreenRequested (e : Event) : Bool :=
  match e with
  | Event.api_fullscreen_requested _ _ => true
  | _ => false

/-- An event that `change_state` can emit, directly or through a call back of the shell. -/
def isTransitionEvent (e : Event) : Bool :=
  match e with
  | Event.unlink_view _ => true
  | Event.view_destroy _ => true
  | Event.surface_unmap => true
  | Event.unset_relative_to => true
  | Event.api_surface_added => true
  | Event.api_committed _ _ => true
  | Event.api_surface_removed => true
  | Event.create_view _ => true
  | Event.layer_entry_insert _ => true
  | Event.view_set_is_mapped _ => true
  | Event.surface_map => true
  | Event.set_relative_to _ _ _ => true
  | Event.send_configure _ _ => true
  | Event.send_fullscreen _ => true
  | Event.send_close => true
  | _ => false

/-- The trace of `b` continues the trace of `a` with events that all satisfy `p`. -/
def TraceExt (p : Event → Bool) (a b : World) : Prop :=
  ∃ es, b.trace = a.trace ++ es ∧ ∀ e ∈ es, p e = true

/-- A shell that calls `set_fullscreen(true)` back from its move and resize callbacks. -/
def grabShell : Shell := fun t =>
  match t.getLast? with
  | some (Event.api_move _ _) => [ShellCall.set_fullscreen true]
  | some (Event.api_resize _ _ _) => [ShellCall.set_fullscreen true]
  | _ => []

/-- A shell that calls `set_fullscreen(true)` back from its committed callback. -/
def lateShell : Shell := fun t =>
  match t.getLast? with
  | some (Event.api_committed _ _) => [ShellCall.set_fullscreen true]
  | _ => []

/-- The record with `state` and `state_updated` put back to given values: what is left to
compare when only a `set_fullscreen` of the shell may have written. -/
def withState (r : weston_desktop_xwayland_surface)
    (s : weston_desktop_xwayland_surface_state) (u : Bool) : weston_desktop_xwayland_surface :=
  { r with state := s, state_updated := u }

/-- The world after staging the rectangles of `rects` one after the other. -/
def stageAll (w : World) (rects : List weston_geometry) : World :=
  rects.foldl (fun v r => set_window_geometry v r.x r.y r.width r.height) w

/-- The trace the shell sees when `change_state` on `w` delivers surface-added. -/
def addedTrace (w : World) : List Event :=
  (change_state_leave w).trace ++ [Event.unset_relative_to, Event.api_surface_added]

/-- The trace the shell sees when `change_state` on `w` delivers the synthesized commit that
follows surface-added. -/
def fakeCommitTrace (sh : Shell) (w : World) : List Event :=
  addedTrace w ++ callEvents (sh (addedTrace w)) ++ [Event.api_committed 0 0]

/-- What holds besides `Inv` of every reachable world: neither `assert(!surface->added)` has
failed and a MAXIMIZED record is added; and, under a side condition `P`, a record in any
managed state is added. -/
structure Safe (P : Prop) (w : World) : Prop where
  inv : Inv w
  no_abort : w.failed ≠ some Assertion.leave_not_added ∧
    w.failed ≠ some Assertion.enter_not_added
  max_added : w.surface.state = MAXIMIZED → w.surface.added = true
  held : P → isManaged w.surface.state = true → w.surface.added = true

/-! ## Lemmas -/

theorem reenter_foldl (calls : List ShellCall) (w : World) :
    calls.foldl reenter w =
      { w with
        trace := w.trace ++ callEvents calls
        surface := { w.surface with
          state := stateAfter calls w.surface.state
          state_updated := w.surface.state_updated || (fsOverride calls).isSome } } := by
  induction calls generalizing w with
  | nil => simp [callEvents, stateAfter, fsOverride]
  | cons c cs ih =>
    rw [List.foldl_cons, ih]
    cases c <;> cases h : fsOverride cs <;>
      simp [reenter, callEvents, stateAfter, fsOverride, fsArg, h, emit,
        weston_desktop_xwayland_surface_set_size, weston_desktop_xwayland_surface_set_fullscreen,
        weston_desktop_xwayland_surface_close]

theorem notify_shell_eq (sh : Shell) (w : World) (e : Event) :
    notify_shell sh w e =
      { w with
        trace := w.trace ++ e :: callEvents (sh (w.trace ++ [e]))
        surface := { w.surface with
          state := stateAfter (sh (w.trace ++ [e])) w.surface.state
          state_updated := w.surface.state_updated || (fsOverride (sh (w.trace ++ [e]))).isSome } } := by
  simp [notify_shell, reenter_foldl, emit]

theorem change_state_fast_path (sh : Shell) (w : World)
    (s : weston_desktop_xwayland_surface_state) (hadded : w.surface.added = true)
    (hs : isManaged s = true) :
    weston_desktop_xwayland_surface_change_state sh w s none none =
      { w with surface := { w.surface with state := s } } := by
  have h1 : s ≠ NONE := by rintro rfl; simp [isManaged] at hs
  have h2 : s ≠ XWAYLAND := by rintro rfl; simp [isManaged] at hs
  simp [weston_desktop_xwayland_surface_change_state, h1, h2, hadded]

theorem foldl_track_callEvents (cs : List ShellCall) (s : Option Bool) :
    (callEvents cs).foldl track s = s := by
  induction cs with
  | nil => rfl
  | cons c cs ih => cases c <;> simpa [callEvents, track] using ih

theorem pairing_append (t u : List Event) : pairing (t ++ u) = u.foldl track (pairing t) := by
  simp [pairing, List.foldl_append]

theorem stateAfter_cases (calls : List ShellCall) (s : weston_desktop_xwayland_surface_state) :
    (fsOverride calls = none ∧ stateAfter calls s = s) ∨
    ((fsOverride calls).isSome = true ∧
      (stateAfter calls s = FULLSCREEN ∨ stateAfter calls s = TOPLEVEL)) := by
  unfold stateAfter
  cases h : fsOverride calls with
  | none => simp
  | some b => cases b <;> simp

theorem inv_initial : Inv initial := by
  constructor <;> simp [initial, pairing, track, isManaged]

theorem inv_notify (sh : Shell) (w : World) (e : Event) (h : Inv w)
    (he1 : e ≠ Event.api_surface_added) (he2 : e ≠ Event.api_surface_removed) :
    Inv (notify_shell sh w e) := by
  obtain ⟨h1, h2, h3, h4⟩ := h
  have ht : track (some w.surface.added) e = some w.surface.added := by
    cases e <;> simp_all [track]
  rw [notify_shell_eq]
  rcases stateAfter_cases (sh (w.trace ++ [e])) w.surface.state with ⟨_, hs⟩ | ⟨_, hs | hs⟩
  all_goals
    constructor <;>
      simp_all [pairing_append, foldl_track_callEvents, isManaged]

theorem fsOverride_cases (calls : List ShellCall) :
    fsOverride calls = none ∨ fsOverride calls = some true ∨ fsOverride calls = some false := by
  cases h : fsOverride calls with
  | none => simp
  | some b => cases b <;> simp

theorem whenOk_of_ok (w : World) (k : World → World) (h : w.failed = none) :
    whenOk w k = k w := by
  simp [whenOk, h]

theorem whenOk_of_failed (w : World) (k : World → World) (h : w.failed ≠ none) :
    whenOk w k = w := by
  cases hf : w.failed with
  | none => exact absurd hf h
  | some a => simp [whenOk, hf]

theorem leave_failed (w : World)
    (h : w.surface.state = XWAYLAND → w.surface.added = false) :
    (change_state_leave w).failed = w.failed := by
  unfold change_state_leave
  split_ifs with h1 h2
  · simp [h h1] at h2
  · simp [emit]
  · rfl

theorem leave_frame (w : World) :
    (change_state_leave w).surface.added = w.surface.added ∧
    (change_state_leave w).surface.state = w.surface.state ∧
    (change_state_leave w).surface.state_updated = w.surface.state_updated ∧
    (change_state_leave w).surface.committed = w.surface.committed ∧
    (change_state_leave w).relative_to = w.relative_to ∧
    pairing (change_state_leave w).trace = pairing w.trace := by
  unfold change_state_leave
  split_ifs <;> simp [emit, assert_fail, pairing, track]

theorem add_failed (sh : Shell) (w : World) (b : Bool) :
    (change_state_add sh w b).failed = w.failed := by
  simp only [change_state_add, notify_shell_eq, weston_desktop_surface_unset_relative_to, emit]
  split_ifs <;> rfl

theorem add_added (sh : Shell) (w : World) (b : Bool) :
    (change_state_add sh w b).surface.added = b := by
  simp only [change_state_add, notify_shell_eq, weston_desktop_surface_unset_relative_to, emit]
  split_ifs <;> simp_all

theorem enter_failed (w : World) (t : weston_desktop_xwayland_surface_state)
    (h : t = XWAYLAND → w.surface.added = false) :
    (change_state_enter w t).failed = w.failed := by
  unfold change_state_enter
  split_ifs with h1 h2
  · simp [h h1] at h2
  · simp [emit, weston_desktop_surface_create_view]
  · rfl

theorem assign_failed (w : World) (t : weston_desktop_xwayland_surface_state) :
    (change_state_assign w t).failed = w.failed := by
  unfold change_state_assign
  split_ifs <;> rfl

/-- The body of `change_state` past the fast path, when no `assert` fails before the
parent block: the phases run one after the other. -/
theorem change_state_phases (sh : Shell) (w : World)
    (target : weston_desktop_xwayland_surface_state) (parent : Option Nat)
    (offset : Option weston_coord_surface) (hok : w.failed = none)
    (hnone : target ≠ NONE)
    (hpar : parent.isSome = true → target = TRANSIENT ∧ offset.isSome = true)
    (hslow : ¬ ((parent.isNone && decide (target ≠ XWAYLAND)) = true ∧ w.surface.added = true))
    (hne : w.surface.state ≠ target)
    (hx : w.surface.state = XWAYLAND → w.surface.added = false) :
    weston_desktop_xwayland_surface_change_state sh w target parent offset =
      change_state_parent
        (change_state_assign
          (change_state_enter
            (change_state_add sh
              (change_state_leave { w with surface := { w.surface with state_updated := false } })
              (parent.isNone && decide (target ≠ XWAYLAND)))
            target)
          target)
        parent offset := by
  have e1 : ¬ (parent.isSome = true ∧ target ≠ TRANSIENT) := fun h => h.2 (hpar h.1).1
  have e2 : ¬ (parent.isSome = true ∧ offset.isNone = true) := fun h => by
    have := (hpar h.1).2
    cases offset <;> simp_all
  have f1 : (change_state_leave
      { w with surface := { w.surface with state_updated := false } }).failed = none := by
    rw [leave_failed _ (by simpa using hx)]; exact hok
  have f2 := add_failed sh (change_state_leave
      { w with surface := { w.surface with state_updated := false } })
      (parent.isNone && decide (target ≠ XWAYLAND))
  rw [f1] at f2
  have f3 : (change_state_enter (change_state_add sh (change_state_leave
      { w with surface := { w.surface with state_updated := false } })
      (parent.isNone && decide (target ≠ XWAYLAND))) target).failed = none := by
    rw [enter_failed _ _ (by intro ht; rw [add_added]; simp [ht])]; exact f2
  have f4 := assign_failed (change_state_enter (change_state_add sh (change_state_leave
      { w with surface := { w.surface with state_updated := false } })
      (parent.isNone && decide (target ≠ XWAYLAND))) target) target
  rw [f3] at f4
  unfold weston_desktop_xwayland_surface_change_state
  simp only [if_neg hnone, if_neg e1, if_neg e2, if_neg hslow]
  rw [if_pos (by simpa using hne)]
  rw [whenOk_of_ok _ _ f1, whenOk_of_ok _ _ f2, whenOk_of_ok _ _ f3, whenOk_of_ok _ _ f4]

/-- The body of `change_state` past the fast path when the state already is the target. -/
theorem change_state_same (sh : Shell) (w : World)
    (target : weston_desktop_xwayland_surface_state) (parent : Option Nat)
    (offset : Option weston_coord_surface) (hok : w.failed = none)
    (hnone : target ≠ NONE)
    (hpar : parent.isSome = true → target = TRANSIENT ∧ offset.isSome = true)
    (hslow : ¬ ((parent.isNone && decide (target ≠ XWAYLAND)) = true ∧ w.surface.added = true))
    (heq : w.surface.state = target) :
    weston_desktop_xwayland_surface_change_state sh w target parent offset =
      change_state_parent { w with surface := { w.surface with state_updated := false } }
        parent offset := by
  have e1 : ¬ (parent.isSome = true ∧ target ≠ TRANSIENT) := fun h => h.2 (hpar h.1).1
  have e2 : ¬ (parent.isSome = true ∧ offset.isNone = true) := fun h => by
    have := (hpar h.1).2
    cases offset <;> simp_all
  unfold weston_desktop_xwayland_surface_change_state
  simp only [if_neg hnone, if_neg e1, if_neg e2, if_neg hslow]
  rw [if_neg (by simpa using heq)]
  rw [whenOk_of_ok _ _ (by simpa using hok)]

theorem fsOverride_mem (calls : List ShellCall) (b : Bool) (h : fsOverride calls = some b) :
    ShellCall.set_fullscreen b ∈ calls := by
  induction calls with
  | nil => simp [fsOverride] at h
  | cons c cs ih =>
    cases hcs : fsOverride cs with
    | some b2 =>
      simp only [fsOverride, hcs, Option.some.injEq] at h
      subst h
      exact List.mem_cons_of_mem _ (ih hcs)
    | none =>
      simp only [fsOverride, hcs] at h
      cases c <;> simp_all [fsArg]

/-- What one notification of the shell does to the world, with the reaction of the shell
summarised by the override `o` and the events `es` it caused. -/
theorem notify_shell_spec (sh : Shell) (w : World) (e : Event) :
    ∃ (o : Option Bool) (es : List Event),
      (∀ s, es.foldl track s = s) ∧
      (Polite sh → o.isSome = true → pairing (w.trace ++ [e]) = some true) ∧
      notify_shell sh w e =
        { w with
          trace := w.trace ++ e :: es
          surface := { w.surface with
            state := overrideState o w.surface.state
            state_updated := w.surface.state_updated || o.isSome } } := by
  refine ⟨fsOverride (sh (w.trace ++ [e])), callEvents (sh (w.trace ++ [e])),
    foldl_track_callEvents _, ?_, ?_⟩
  · intro hp ho
    obtain ⟨b, hb⟩ := Option.isSome_iff_exists.mp ho
    exact hp _ b (fsOverride_mem _ b hb)
  · rw [notify_shell_eq]
    have : stateAfter (sh (w.trace ++ [e])) w.surface.state =
        overrideState (fsOverride (sh (w.trace ++ [e]))) w.surface.state := by
      unfold stateAfter overrideState
      rcases fsOverride_cases (sh (w.trace ++ [e])) with h | h | h <;> simp [h]
    rw [this]

theorem add_spec (sh : Shell) (v : World) (b : Bool)
    (hp : pairing v.trace = some v.surface.added)
    (hs : ¬ (b = true ∧ v.surface.added = true))
    (hu : v.surface.state_updated = false) :
    pairing (change_state_add sh v b).trace = some b ∧
    (b = true → (change_state_add sh v b).relative_to = none) ∧
    (b = false → (change_state_add sh v b).relative_to = v.relative_to) ∧
    (change_state_add sh v b).surface.view = v.surface.view ∧
    ((change_state_add sh v b).surface.state_updated = true →
      (change_state_add sh v b).surface.state = FULLSCREEN ∨
      (change_state_add sh v b).surface.state = TOPLEVEL) ∧
    ((change_state_add sh v b).surface.state_updated = false →
      (change_state_add sh v b).surface.state = v.surface.state) ∧
    (Polite sh → b = false → (change_state_add sh v b).surface.state_updated = false) := by
  unfold change_state_add
  cases b with
  | true =>
    have ha : v.surface.added = false := by simpa using hs
    simp only [if_true]
    obtain ⟨o1, es1, t1, -, e1⟩ :=
      notify_shell_spec sh (weston_desktop_surface_unset_relative_to v) Event.api_surface_added
    rw [e1]
    obtain ⟨o2, es2, t2, -, e2⟩ := notify_shell_spec sh
      { weston_desktop_surface_unset_relative_to v with
          trace := (weston_desktop_surface_unset_relative_to v).trace ++
            Event.api_surface_added :: es1
          surface := { (weston_desktop_surface_unset_relative_to v).surface with
            state := overrideState o1 (weston_desktop_surface_unset_relative_to v).surface.state
            state_updated :=
              (weston_desktop_surface_unset_relative_to v).surface.state_updated || o1.isSome
            added := true } }
      (Event.api_committed 0 0)
    simp only [weston_desktop_surface_unset_relative_to, emit] at e2 ⊢
    rw [e2]
    split_ifs <;>
      rcases o1 with _ | _ | _ <;> rcases o2 with _ | _ | _ <;>
      simp_all [pairing_append, pairing, List.foldl_append, track, overrideState]
  | false =>
    simp only [Bool.false_eq_true, if_false]
    obtain ⟨o1, es1, t1, p1, e1⟩ := notify_shell_spec sh v Event.api_surface_removed
    rw [e1]
    split_ifs with h <;>
      rcases o1 with _ | _ | _ <;>
      simp_all [pairing_append, pairing, List.foldl_append, track, overrideState]

theorem enter_spec (v : World) (t : weston_desktop_xwayland_surface_state)
    (ha : t = XWAYLAND → v.surface.added = false) :
    pairing (change_state_enter v t).trace = pairing v.trace ∧
    (change_state_enter v t).surface.added = v.surface.added ∧
    (change_state_enter v t).surface.state = v.surface.state ∧
    (change_state_enter v t).surface.state_updated = v.surface.state_updated ∧
    (change_state_enter v t).relative_to = v.relative_to ∧
    (t = XWAYLAND → (change_state_enter v t).surface.view.isSome = true) ∧
    (t ≠ XWAYLAND → (change_state_enter v t).surface.view = v.surface.view) := by
  unfold change_state_enter
  split_ifs with h1 h2
  · simp [ha h1] at h2
  · simp [h1, emit, weston_desktop_surface_create_view, pairing, track]
  · simp [h1]

theorem assign_spec (v : World) (t : weston_desktop_xwayland_surface_state) :
    (change_state_assign v t).trace = v.trace ∧
    (change_state_assign v t).surface.added = v.surface.added ∧
    (change_state_assign v t).surface.view = v.surface.view ∧
    (change_state_assign v t).relative_to = v.relative_to ∧
    (v.surface.state_updated = false → (change_state_assign v t).surface.state = t) ∧
    (v.surface.state_updated = true →
      (change_state_assign v t).surface.state = v.surface.state) := by
  unfold change_state_assign
  split_ifs with h <;> simp_all

theorem parent_spec (v : World) (parent : Option Nat) (offset : Option weston_coord_surface) :
    pairing (change_state_parent v parent offset).trace = pairing v.trace ∧
    (change_state_parent v parent offset).surface = v.surface ∧
    (parent = none → (change_state_parent v parent offset).relative_to = v.relative_to) ∧
    ((change_state_parent v parent offset).relative_to = v.relative_to ∨
      (change_state_parent v parent offset).relative_to.isSome = true) := by
  unfold change_state_parent
  split
  · split_ifs <;>
      simp [weston_desktop_surface_set_relative_to, emit, assert_fail, pairing, track]
  · rename_i hne
    refine ⟨rfl, rfl, fun _ => rfl, Or.inl rfl⟩

theorem leave_view (w : World)
    (h : w.surface.state = XWAYLAND → w.surface.added = false) :
    (w.surface.state = XWAYLAND → (change_state_leave w).surface.view = none) ∧
    (w.surface.state ≠ XWAYLAND → (change_state_leave w).surface.view = w.surface.view) := by
  unfold change_state_leave
  split_ifs with h1 h2
  · simp [h h1] at h2
  · simp [h1, emit]
  · simp [h1]

theorem managed_cases (s : weston_desktop_xwayland_surface_state) :
    isManaged s = true ↔ s = TOPLEVEL ∨ s = MAXIMIZED ∨ s = FULLSCREEN := by
  simp [isManaged]

theorem change_state_inv (sh : Shell) (w : World)
    (target : weston_desktop_xwayland_surface_state) (parent : Option Nat)
    (offset : Option weston_coord_surface) (h : Inv w) (hok : w.failed = none)
    (hpar : target = TRANSIENT → parent.isSome = true) :
    Inv (weston_desktop_xwayland_surface_change_state sh w target parent offset) ∧
    (Polite sh → Disc w →
      Disc (weston_desktop_xwayland_surface_change_state sh w target parent offset)) := by
  obtain ⟨h1, h2, h3, h4⟩ := h
  by_cases hnone : target = NONE
  · have e : weston_desktop_xwayland_surface_change_state sh w target parent offset =
        assert_fail w Assertion.state_not_none := by
      unfold weston_desktop_xwayland_surface_change_state
      simp only [if_pos hnone]
    rw [e]
    exact ⟨⟨h1, h2, h3, h4⟩, fun _ d => ⟨d.1, d.2⟩⟩
  by_cases e1 : parent.isSome = true ∧ target ≠ TRANSIENT
  · have e : weston_desktop_xwayland_surface_change_state sh w target parent offset =
        assert_fail w Assertion.parent_implies_transient := by
      unfold weston_desktop_xwayland_surface_change_state
      simp only [if_neg hnone, if_pos e1]
    rw [e]
    exact ⟨⟨h1, h2, h3, h4⟩, fun _ d => ⟨d.1, d.2⟩⟩
  by_cases e2 : parent.isSome = true ∧ offset.isNone = true
  · have e : weston_desktop_xwayland_surface_change_state sh w target parent offset =
        assert_fail w Assertion.parent_implies_offset := by
      unfold weston_desktop_xwayland_surface_change_state
      simp only [if_neg hnone, if_neg e1, if_pos e2]
    rw [e]
    exact ⟨⟨h1, h2, h3, h4⟩, fun _ d => ⟨d.1, d.2⟩⟩
  have hpar2 : parent.isSome = true → target = TRANSIENT ∧ offset.isSome = true := by
    intro hp
    refine ⟨by_contra fun hc => e1 ⟨hp, hc⟩, ?_⟩
    cases offset with
    | none => exact absurd ⟨hp, rfl⟩ e2
    | some _ => rfl
  by_cases hfast : (parent.isNone && decide (target ≠ XWAYLAND)) = true ∧ w.surface.added = true
  · have e : weston_desktop_xwayland_surface_change_state sh w target parent offset =
        { w with surface := { w.surface with state := target } } := by
      unfold weston_desktop_xwayland_surface_change_state
      simp only [if_neg hnone, if_neg e1, if_neg e2, if_pos hfast]
    rw [e]
    obtain ⟨hf1, hf2⟩ := hfast
    have hm : isManaged target = true := by
      cases parent <;> cases target <;> simp_all [isManaged]
    have hm0 := (managed_cases _).mp (h2 hf2)
    refine ⟨⟨h1, fun _ => hm, h3, ?_⟩, fun _ d => ⟨?_, ?_⟩⟩
    · intro hx; simp only at hx; rw [hx] at hm; simp [isManaged] at hm
    · intro hv
      have := d.1 hv
      rcases hm0 with h | h | h <;> simp [h] at this
    · intro hr
      have := h3 hf2
      simp [this] at hr
  have hx : w.surface.state = XWAYLAND → w.surface.added = false := by
    intro hs
    by_contra hc
    have := h2 (by simpa using hc)
    simp [hs, isManaged] at this
  by_cases heq : w.surface.state = target
  · rw [change_state_same sh w target parent offset hok hnone hpar2 hfast heq]
    obtain ⟨p1, p2, p3, p4⟩ :=
      parent_spec { w with surface := { w.surface with state_updated := false } } parent offset
    have hna : parent.isSome = true → w.surface.added = false := by
      intro hp
      by_contra hc
      have := h2 (by simpa using hc)
      rw [heq, (hpar2 hp).1] at this
      simp [isManaged] at this
    refine ⟨⟨?_, ?_, ?_, ?_⟩, fun _ d => ⟨?_, ?_⟩⟩
    · rw [p1, p2]; exact h1
    · rw [p2]; exact h2
    · rw [p2]
      intro ha
      cases parent with
      | none => rw [p3 rfl]; exact h3 ha
      | some p => simp [hna rfl] at ha
    · rw [p2]; exact h4
    · rw [p2]; exact d.1
    · rw [p2]
      intro hr
      cases parent with
      | none => rw [p3 rfl] at hr; exact d.2 hr
      | some p => left; simp only; rw [heq]; exact (hpar2 rfl).1
  · rw [change_state_phases sh w target parent offset hok hnone hpar2 hfast heq hx]
    have hx0 : ({ w with surface := { w.surface with state_updated := false } } : World).surface.state
        = XWAYLAND →
        ({ w with surface := { w.surface with state_updated := false } } : World).surface.added
        = false := hx
    obtain ⟨l1, l2, l3, l4, l5, l6⟩ :=
      leave_frame { w with surface := { w.surface with state_updated := false } }
    obtain ⟨lv1, lv2⟩ :=
      leave_view { w with surface := { w.surface with state_updated := false } } hx0
    simp only at l1 l2 l3 l4 l5 l6 lv1 lv2
    generalize change_state_leave
      { w with surface := { w.surface with state_updated := false } } = v1 at *
    obtain ⟨a1, a2, a3, a4, a5, a6, a7⟩ :=
      add_spec sh v1 (parent.isNone && decide (target ≠ XWAYLAND))
        (by rw [l6, l1]; exact h1) (by rw [l1]; exact hfast) l3
    have a0 := add_added sh v1 (parent.isNone && decide (target ≠ XWAYLAND))
    generalize change_state_add sh v1 (parent.isNone && decide (target ≠ XWAYLAND)) = v2 at *
    obtain ⟨n1, n2, n3, n4, n5, n6, n7⟩ :=
      enter_spec v2 target (by intro ht; rw [a0]; simp [ht])
    generalize change_state_enter v2 target = v3 at *
    obtain ⟨s1, s2, s3, s4, s5, s6⟩ := assign_spec v3 target
    generalize change_state_assign v3 target = v4 at *
    obtain ⟨p1, p2, p3, p4⟩ := parent_spec v4 parent offset
    generalize change_state_parent v4 parent offset = v5 at *
    have hstate : v4.surface.state = target ∨
        ((parent.isNone && decide (target ≠ XWAYLAND)) = true ∧
          (v4.surface.state = FULLSCREEN ∨ v4.surface.state = TOPLEVEL)) ∨
        (v4.surface.state = FULLSCREEN ∨ v4.surface.state = TOPLEVEL) := by
      cases hu : v3.surface.state_updated with
      | false => left; exact s5 hu
      | true =>
        right; right
        rw [s6 hu, n3]
        exact a5 (by rw [← n4]; exact hu)
    have hadd5 : v5.surface.added = (parent.isNone && decide (target ≠ XWAYLAND)) := by
      rw [p2, s2, n2, a0]
    cases hb : (parent.isNone && decide (target ≠ XWAYLAND)) with
    | true =>
      rw [hb] at a0 a1 a2 a3 hadd5
      have hpn : parent = none := by
        cases parent with
        | none => rfl
        | some _ => simp at hb
      have htx : target ≠ XWAYLAND := by
        intro ht; simp [ht] at hb
      have htt : target ≠ TRANSIENT := by
        intro ht; have := hpar ht; simp [hpn] at this
      have hmt : isManaged target = true := by
        cases target <;> simp_all [isManaged]
      have hrel : v5.relative_to = none := by
        rw [p3 hpn, s4, n5]; exact a2 rfl
      have hst5 : isManaged v5.surface.state = true := by
        rw [p2]
        rcases hstate with h | ⟨-, h | h⟩ | h | h <;> rw [h] <;> first | exact hmt | rfl
      refine ⟨⟨?_, fun _ => hst5, fun _ => hrel, ?_⟩, fun _ d => ⟨?_, ?_⟩⟩
      · rw [p1, s1, n1, a1, hadd5]
      · intro hs; rw [hs] at hst5; simp [isManaged] at hst5
      · intro hv
        exfalso
        rw [p2, s3, n7 htx, a4] at hv
        by_cases hw : w.surface.state = XWAYLAND
        · rw [lv1 hw] at hv; simp at hv
        · rw [lv2 hw] at hv
          exact hw (d.1 hv)
      · intro hr; rw [hrel] at hr; simp at hr
    | false =>
      rw [hb] at a0 a1 a2 a3 hadd5
      have hna : v5.surface.added = false := hadd5
      refine ⟨⟨?_, ?_, ?_, ?_⟩, fun hp d => ⟨?_, ?_⟩⟩
      · rw [p1, s1, n1, a1, hadd5]
      · intro ha; rw [hna] at ha; simp at ha
      · intro ha; rw [hna] at ha; simp at ha
      · intro hs
        rw [p2] at hs ⊢
        have ht : target = XWAYLAND := by
          rcases hstate with h | ⟨hh, _⟩ | h | h
          · rw [← h]; exact hs
          · rw [hb] at hh; simp at hh
          · rw [h] at hs; simp at hs
          · rw [h] at hs; simp at hs
        rw [s3]; exact n6 ht
      · have hu : v3.surface.state_updated = false := by rw [n4]; exact a7 hp hb
        have hst : v4.surface.state = target := s5 hu
        intro hv
        rw [p2] at hv ⊢
        rw [hst]
        by_contra htx
        rw [s3, n7 htx, a4] at hv
        by_cases hw : w.surface.state = XWAYLAND
        · rw [lv1 hw] at hv; simp at hv
        · rw [lv2 hw] at hv
          exact hw (d.1 hv)
      · have hu : v3.surface.state_updated = false := by rw [n4]; exact a7 hp hb
        have hst : v4.surface.state = target := s5 hu
        intro _
        rw [p2, hst]
        cases parent with
        | some _ => left; exact (hpar2 rfl).1
        | none =>
          right
          by_contra htx
          simp [htx] at hb

theorem good_congr (P : Prop) (w w' : World) (h : Good P w)
    (ht : pairing w'.trace = pairing w.trace)
    (ha : w'.surface.added = w.surface.added)
    (hs : w'.surface.state = w.surface.state)
    (hv : w'.surface.view = w.surface.view)
    (hr : w'.relative_to = w.relative_to) : Good P w' := by
  obtain ⟨⟨h1, h2, h3, h4⟩, hd⟩ := h
  refine ⟨⟨?_, ?_, ?_, ?_⟩, fun hp => ⟨?_, ?_⟩⟩
  · rw [ht, ha]; exact h1
  · rw [ha, hs]; exact h2
  · rw [ha, hr]; exact h3
  · rw [hs, hv]; exact h4
  · rw [hs, hv]; exact (hd hp).1
  · rw [hs, hr]; exact (hd hp).2

theorem track_neutral (e : Event) (s : Option Bool)
    (he1 : e ≠ Event.api_surface_added) (he2 : e ≠ Event.api_surface_removed) :
    track s e = s := by
  cases e <;> simp_all [track]

theorem good_emit (P : Prop) (w : World) (e : Event) (h : Good P w)
    (he1 : e ≠ Event.api_surface_added) (he2 : e ≠ Event.api_surface_removed) :
    Good P (emit w e) := by
  apply good_congr P w _ h <;> simp [emit, pairing, List.foldl_append, track_neutral e _ he1 he2]

theorem good_notify (P : Prop) (sh : Shell) (hP : P → Polite sh) (w : World) (e : Event)
    (h : Good P w)
    (he1 : e ≠ Event.api_surface_added) (he2 : e ≠ Event.api_surface_removed) :
    Good P (notify_shell sh w e) := by
  refine ⟨inv_notify sh w e h.1 he1 he2, fun hp0 => ?_⟩
  have hp := hP hp0
  obtain ⟨⟨h1, h2, h3, h4⟩, hd⟩ := h
  obtain ⟨d1, d2⟩ := hd hp0
  obtain ⟨o, es, t1, p1, e1⟩ := notify_shell_spec sh w e
  rw [e1]
  cases o with
  | none => exact ⟨d1, d2⟩
  | some b =>
    have hk := p1 hp rfl
    rw [pairing_append, List.foldl_cons, List.foldl_nil, track_neutral e _ he1 he2, h1] at hk
    have ha : w.surface.added = true := by simpa using hk
    have hm := (managed_cases _).mp (h2 ha)
    have hr := h3 ha
    constructor
    · intro hv
      have := d1 hv
      rcases hm with h | h | h <;> simp [h] at this
    · intro hr2
      simp [hr] at hr2

theorem good_whenOk (P : Prop) (w : World) (k : World → World) (h : Good P w)
    (hk : ∀ v, Good P v → v.failed = none → Good P (k v)) : Good P (whenOk w k) := by
  unfold whenOk
  split_ifs with hf
  · exact h
  · exact hk w h (by simpa using hf)

theorem good_change_state (P : Prop) (sh : Shell) (hP : P → Polite sh) (w : World)
    (target : weston_desktop_xwayland_surface_state) (parent : Option Nat)
    (offset : Option weston_coord_surface) (h : Good P w) (hok : w.failed = none)
    (hpar : target = TRANSIENT → parent.isSome = true) :
    Good P (weston_desktop_xwayland_surface_change_state sh w target parent offset) :=
  ⟨(change_state_inv sh w target parent offset h.1 hok hpar).1,
    fun hp => (change_state_inv sh w target parent offset h.1 hok hpar).2 (hP hp) (h.2 hp)⟩

theorem good_committed (P : Prop) (sh : Shell) (hP : P → Polite sh) (w : World) (sx sy : Int)
    (h : Good P w) :
    Good P (weston_desktop_xwayland_surface_committed sh w sx sy) := by
  unfold weston_desktop_xwayland_surface_committed
  simp only
  have g1 : Good P { w with surface := { w.surface with committed := true } } :=
    good_congr P w _ h rfl rfl rfl rfl rfl
  split_ifs with c1 c2 c3 c4 c5
  all_goals
    first
    | apply good_emit P _ _ _ (by simp) (by simp)
    | skip
  all_goals
    first
    | apply good_notify P sh hP _ _ _ (by simp) (by simp)
    | skip
  all_goals
    first
    | exact g1
    | (apply good_congr P _ _ g1 <;>
        simp [weston_desktop_surface_set_geometry, emit, pairing, List.foldl_append, track])

theorem good_set_fullscreen_notification (P : Prop) (w : World) (b : Bool) (h : Good P w)
    (hk : P → pairing w.trace = some true) :
    Good P (weston_desktop_xwayland_surface_set_fullscreen w b) := by
  obtain ⟨⟨h1, h2, h3, h4⟩, hd⟩ := h
  unfold weston_desktop_xwayland_surface_set_fullscreen
  refine ⟨⟨?_, ?_, ?_, ?_⟩, fun hp => ⟨?_, ?_⟩⟩
  · simpa [emit, pairing, List.foldl_append, track] using h1
  · intro _; cases b <;> simp [emit, isManaged]
  · simpa [emit] using h3
  · cases b <;> simp [emit]
  · have hk2 := hk hp
    rw [h1] at hk2
    have ha : w.surface.added = true := by simpa using hk2
    have hm := (managed_cases _).mp (h2 ha)
    intro hv
    exfalso
    have := (hd hp).1 (by simpa [emit] using hv)
    rcases hm with h | h | h <;> simp [h] at this
  · have hk2 := hk hp
    rw [h1] at hk2
    have ha : w.surface.added = true := by simpa using hk2
    intro hr
    simp [emit, h3 ha] at hr

theorem good_set_toplevel (P : Prop) (sh : Shell) (hP : P → Polite sh) (w : World)
    (h : Good P w) (hok : w.failed = none) : Good P (set_toplevel sh w) := by
  unfold set_toplevel
  apply good_whenOk P _ _ (good_change_state P sh hP w _ _ _ h hok (by simp))
  intro v hv _
  split_ifs
  · exact good_notify P sh hP v (Event.api_fullscreen_requested false none) hv
      (by simp) (by simp)
  · exact hv

theorem good_perform (P : Prop) (sh : Shell) (hP : P → Polite sh) (w : World) (op : Op)
    (h : Good P w) (hok : w.failed = none) (ha : P → opAllowed w op = true) :
    Good P (perform sh w op) := by
  cases op with
  | set_toplevel => exact good_set_toplevel P sh hP w h hok
  | set_toplevel_with_position x y =>
    simp only [perform, set_toplevel_with_position]
    apply good_whenOk P _ _ (good_set_toplevel P sh hP w h hok)
    intro v hv _
    exact good_notify P sh hP v _ hv (by simp) (by simp)
  | set_parent wparent =>
    simp only [perform, set_parent]
    split_ifs
    · exact h
    · exact good_notify P sh hP w _ h (by simp) (by simp)
  | set_transient wparent offset =>
    simp only [perform, set_transient]
    split_ifs
    · exact h
    · exact good_change_state P sh hP w _ _ _ h hok (by simp)
  | set_fullscreen output =>
    simp only [perform, set_fullscreen]
    apply good_whenOk P _ _ (good_change_state P sh hP w _ _ _ h hok (by simp))
    intro v hv _
    exact good_notify P sh hP v _ hv (by simp) (by simp)
  | set_xwayland x y =>
    simp only [perform, set_xwayland]
    apply good_whenOk P _ _ (good_change_state P sh hP w _ _ _ h hok (by simp))
    intro v hv _
    exact good_emit P v _ hv (by simp) (by simp)
  | move pointer =>
    simp only [perform, move]
    split_ifs
    · exact good_notify P sh hP w _ h (by simp) (by simp)
    · exact h
  | resize pointer edges =>
    simp only [perform, resize]
    split_ifs
    · exact good_notify P sh hP w _ h (by simp) (by simp)
    · exact h
  | set_title title => exact good_emit P w _ h (by simp) (by simp)
  | set_window_geometry x y width height => exact good_congr P w _ h rfl rfl rfl rfl rfl
  | set_maximized =>
    simp only [perform, set_maximized]
    apply good_whenOk P _ _ (good_change_state P sh hP w _ _ _ h hok (by simp))
    intro v hv _
    exact good_notify P sh hP v _ hv (by simp) (by simp)
  | set_minimized => exact good_notify P sh hP w _ h (by simp) (by simp)
  | set_pid pid => exact good_emit P w _ h (by simp) (by simp)
  | get_position => exact good_notify P sh hP w _ h (by simp) (by simp)
  | committed sx sy => exact good_committed P sh hP w sx sy h
  | shell_set_size width height => exact good_emit P w _ h (by simp) (by simp)
  | shell_set_fullscreen b =>
    apply good_set_fullscreen_notification P w b h
    intro hp
    simpa [opAllowed] using ha hp
  | shell_close => exact good_emit P w _ h (by simp) (by simp)
  | shell_get_maximized => exact h
  | shell_get_fullscreen => exact h

theorem good_step (P : Prop) (sh : Shell) (hP : P → Polite sh) (w : World) (op : Op)
    (h : Good P w) (ha : P → opAllowed w op = true) :
    Good P (step sh w op) := by
  unfold step whenOk
  split_ifs with hf
  · exact h
  · exact good_perform P sh hP w op h (by simpa using hf) ha

theorem good_foldl (P : Prop) (sh : Shell) (hP : P → Polite sh) (ops : List Op) :
    ∀ w, Good P w → (P → politeRun sh w ops = true) → Good P (ops.foldl (step sh) w) := by
  induction ops with
  | nil => intro w h _; exact h
  | cons op ops ih =>
    intro w h hr
    rw [List.foldl_cons]
    apply ih
    · exact good_step P sh hP w op h (fun hp => by
        have := hr hp
        simp only [politeRun, Bool.and_eq_true] at this
        exact this.1)
    · intro hp
      have := hr hp
      simp only [politeRun, Bool.and_eq_true] at this
      exact this.2

theorem inv_run (sh : Shell) (ops : List Op) : Inv (run sh ops) :=
  (good_foldl False sh (fun h => h.elim) ops initial ⟨inv_initial, fun h => h.elim⟩
    (fun h => h.elim)).1

theorem disc_initial : Disc initial := by
  constructor <;> simp [initial]

theorem disc_run (sh : Shell) (ops : List Op) (hp : Polite sh)
    (hr : politeRun sh initial ops = true) : Disc (run sh ops) :=
  (good_foldl True sh (fun _ => hp) ops initial ⟨inv_initial, fun _ => disc_initial⟩
    (fun _ => hr)).2 trivial

theorem callEvents_not_view (cs : List ShellCall) : ∀ e ∈ callEvents cs, isViewEvent e = false := by
  induction cs with
  | nil => simp [callEvents]
  | cons c cs ih =>
    cases c <;> simp only [callEvents, List.mem_cons] <;> intro e he
    all_goals first
      | exact ih e he
      | (rcases he with rfl | he
         · rfl
         · exact ih e he)

theorem add_trace (sh : Shell) (v : World) (b : Bool) :
    ∃ es, (change_state_add sh v b).trace = v.trace ++ es ∧ ∀ e ∈ es, isViewEvent e = false := by
  simp only [change_state_add, notify_shell_eq, weston_desktop_surface_unset_relative_to, emit]
  split_ifs
  · refine ⟨_, by simp only [List.append_assoc]; rfl, ?_⟩
    intro e he
    simp only [List.cons_append, List.nil_append, List.mem_cons, List.mem_append] at he
    rcases he with rfl | rfl | he | rfl | he
    · rfl
    · rfl
    · exact callEvents_not_view _ e he
    · rfl
    · exact callEvents_not_view _ e he
  · refine ⟨_, by simp only [List.append_assoc]; rfl, ?_⟩
    intro e he
    simp only [List.cons_append, List.nil_append, List.mem_cons, List.mem_append] at he
    rcases he with rfl | rfl | he
    · rfl
    · rfl
    · exact callEvents_not_view _ e he
  · refine ⟨_, rfl, ?_⟩
    intro e he
    simp only [List.mem_cons] at he
    rcases he with rfl | he
    · rfl
    · exact callEvents_not_view _ e he
  · exact ⟨[], by simp, by simp⟩

theorem parent_trace (v : World) (parent : Option Nat) (offset : Option weston_coord_surface) :
    ∃ es, (change_state_parent v parent offset).trace = v.trace ++ es ∧
      ∀ e ∈ es, isViewEvent e = false := by
  unfold change_state_parent
  split
  · split_ifs
    · exact ⟨_, rfl, by simp [isViewEvent]⟩
    · exact ⟨[], by simp [assert_fail], by simp⟩
  · exact ⟨[], by simp, by simp⟩

theorem add_frame (sh : Shell) (v : World) (b : Bool) :
    (change_state_add sh v b).fresh_view = v.fresh_view ∧
    (change_state_add sh v b).surface.view = v.surface.view := by
  simp only [change_state_add, notify_shell_eq, weston_desktop_surface_unset_relative_to, emit]
  split_ifs <;> exact ⟨rfl, rfl⟩

theorem enter_xwayland_emits (sh : Shell) (w : World) (hok : w.failed = none)
    (hs : w.surface.state ≠ XWAYLAND) :
    ∃ pre,
      (weston_desktop_xwayland_surface_change_state sh w XWAYLAND none none).trace =
        w.trace ++ pre ++ [Event.create_view w.fresh_view, Event.layer_entry_insert w.fresh_view,
          Event.view_set_is_mapped w.fresh_view, Event.surface_map] ∧
      (∀ e ∈ pre, isViewEvent e = false) ∧
      (weston_desktop_xwayland_surface_change_state sh w XWAYLAND none none).surface.view =
        some w.fresh_view := by
  rw [change_state_phases sh w XWAYLAND none none hok (by simp) (by simp) (by simp) hs
    (fun h => absurd h hs)]
  have hl : change_state_leave { w with surface := { w.surface with state_updated := false } } =
      { w with surface := { w.surface with state_updated := false } } := by
    simp [change_state_leave, hs]
  rw [hl]
  simp only [Option.isNone_none, ne_eq, not_true_eq_false, decide_False, Bool.and_false]
  obtain ⟨pre, ht, hpre⟩ :=
    add_trace sh { w with surface := { w.surface with state_updated := false } } false
  obtain ⟨hf, -⟩ :=
    add_frame sh { w with surface := { w.surface with state_updated := false } } false
  have ha := add_added sh { w with surface := { w.surface with state_updated := false } } false
  generalize change_state_add sh
    { w with surface := { w.surface with state_updated := false } } false = v2 at *
  have he : change_state_enter v2 XWAYLAND =
      { v2 with
        fresh_view := v2.fresh_view + 1
        surface := { v2.surface with view := some v2.fresh_view }
        trace := v2.trace ++ [Event.create_view v2.fresh_view,
          Event.layer_entry_insert v2.fresh_view, Event.view_set_is_mapped v2.fresh_view,
          Event.surface_map] } := by
    simp [change_state_enter, ha, weston_desktop_surface_create_view, emit]
  obtain ⟨s1, -, s3, -, -, -⟩ := assign_spec (change_state_enter v2 XWAYLAND) XWAYLAND
  refine ⟨pre, ?_, hpre, ?_⟩
  · show (change_state_assign (change_state_enter v2 XWAYLAND) XWAYLAND).trace = _
    rw [s1, he]
    simp only at ht hf
    simp only [ht, hf]
  · show (change_state_assign (change_state_enter v2 XWAYLAND) XWAYLAND).surface.view = _
    rw [s3, he]
    simp only at hf
    simp only [hf]

theorem leave_xwayland_emits (sh : Shell) (w : World)
    (target : weston_desktop_xwayland_surface_state) (parent : Option Nat)
    (offset : Option weston_coord_surface) (hok : w.failed = none)
    (hs : w.surface.state = XWAYLAND) (ha : w.surface.added = false)
    (ht : target ≠ XWAYLAND) (hnone : target ≠ NONE)
    (hpar : parent.isSome = true → target = TRANSIENT ∧ offset.isSome = true) :
    ∃ rest,
      (weston_desktop_xwayland_surface_change_state sh w target parent offset).trace =
        w.trace ++ Event.unlink_view w.surface.view :: Event.view_destroy w.surface.view :: rest ∧
      (∀ e ∈ rest, isViewEvent e = false) ∧
      (weston_desktop_xwayland_surface_change_state sh w target parent offset).surface.view =
        none := by
  rw [change_state_phases sh w target parent offset hok hnone hpar (by simp [ha])
    (by rw [hs]; exact fun h => ht h.symm) (fun _ => ha)]
  have hl : change_state_leave { w with surface := { w.surface with state_updated := false } } =
      { w with
        surface := { w.surface with state_updated := false, view := none }
        trace := w.trace ++ [Event.unlink_view w.surface.view,
          Event.view_destroy w.surface.view, Event.surface_unmap] } := by
    simp [change_state_leave, hs, ha, emit]
  rw [hl]
  obtain ⟨es, hes, hes2⟩ := add_trace sh
    { w with
      surface := { w.surface with state_updated := false, view := none }
      trace := w.trace ++ [Event.unlink_view w.surface.view,
        Event.view_destroy w.surface.view, Event.surface_unmap] }
    (parent.isNone && decide (target ≠ XWAYLAND))
  obtain ⟨-, hv⟩ := add_frame sh
    { w with
      surface := { w.surface with state_updated := false, view := none }
      trace := w.trace ++ [Event.unlink_view w.surface.view,
        Event.view_destroy w.surface.view, Event.surface_unmap] }
    (parent.isNone && decide (target ≠ XWAYLAND))
  generalize change_state_add sh
    { w with
      surface := { w.surface with state_updated := false, view := none }
      trace := w.trace ++ [Event.unlink_view w.surface.view,
        Event.view_destroy w.surface.view, Event.surface_unmap] }
    (parent.isNone && decide (target ≠ XWAYLAND)) = v2 at *
  have he : change_state_enter v2 target = v2 := by simp [change_state_enter, ht]
  rw [he]
  obtain ⟨s1, -, s3, -, -, -⟩ := assign_spec v2 target
  obtain ⟨ps, hps, hps2⟩ := parent_trace (change_state_assign v2 target) parent offset
  obtain ⟨-, p2, -, -⟩ := parent_spec (change_state_assign v2 target) parent offset
  refine ⟨Event.surface_unmap :: (es ++ ps), ?_, ?_, ?_⟩
  · rw [hps, s1, hes]; simp
  · intro e he
    simp only [List.mem_cons, List.mem_append] at he
    rcases he with rfl | he | he
    · rfl
    · exact hes2 e he
    · exact hps2 e he
  · rw [p2, s3, hv]

theorem callEvents_client (cs : List ShellCall) : ∀ e ∈ callEvents cs, isClientEvent e = true := by
  induction cs with
  | nil => simp [callEvents]
  | cons c cs ih =>
    cases c <;> simp only [callEvents, List.mem_cons] <;> intro e he
    all_goals first
      | exact ih e he
      | (rcases he with rfl | he
         · rfl
         · exact ih e he)

theorem filter_client (p : Event → Bool) (hp : ∀ e, isClientEvent e = true → p e = false)
    (es : List Event) (hes : ∀ e ∈ es, isClientEvent e = true) : es.filter p = [] := by
  induction es with
  | nil => rfl
  | cons e es ih =>
    have h1 := hp e (hes e (by simp))
    simp only [List.filter_cons, h1]
    exact ih (fun x hx => hes x (by simp [hx]))

theorem emitted_append (w w' : World) (es : List Event) (h : w'.trace = w.trace ++ es) :
    emitted w w' = es := by
  simp [emitted, h]

theorem wrap32_of_inInt32 (z : Int) (h : inInt32 z) : wrap32 z = z := by
  unfold inInt32 at h
  unfold wrap32
  omega

theorem foldl_track_none (t : List Event) : t.foldl track none = none := by
  induction t with
  | nil => rfl
  | cons e t ih => rw [List.foldl_cons]; cases e <;> simpa [track] using ih

theorem alternates_iff (t : List Event) :
    ∀ held, alternates held t = true ↔ (t.foldl track (some held)).isSome = true := by
  induction t with
  | nil => intro held; simp [alternates]
  | cons e t ih =>
    intro held
    cases e <;> cases held <;>
      simp [alternates, track, ih, foldl_track_none]

theorem polite_quiet : Polite quietShell := by
  intro t b h
  simp [quietShell] at h

theorem polite_eager : Polite eagerShell := by
  intro t b h
  unfold eagerShell at h
  split_ifs at h with hp
  · exact hp
  · simp at h

theorem fsOverride_none_of_not_mem (calls : List ShellCall)
    (h : ∀ b, ShellCall.set_fullscreen b ∉ calls) : fsOverride calls = none := by
  cases hf : fsOverride calls with
  | none => rfl
  | some b => exact absurd (fsOverride_mem calls b hf) (h b)

theorem countP_zero_of_not_view (p : Event → Bool) (hp : ∀ e, p e = true → isViewEvent e = true)
    (es : List Event) (hes : ∀ e ∈ es, isViewEvent e = false) : es.countP p = 0 := by
  rw [List.countP_eq_zero]
  intro e he hpe
  have := hp e hpe
  rw [hes e he] at this
  simp at this

/-! ## The claims -/

/-- Claim C1: on a record with `added = true`, a sequence of `change_state` calls with targets
among TOPLEVEL, MAXIMIZED, FULLSCREEN and no parent changes nothing but `state`: the trace is
unchanged (no surface-added, surface-removed, view or map/unmap event), `added` stays true,
every other field keeps its value, and `state` ends as the last target. -/
theorem change_state_managed_sequence (sh : Shell) (w : World)
    (targets : List weston_desktop_xwayland_surface_state)
    (hadded : w.surface.added = true)
    (htargets : ∀ s ∈ targets, s = TOPLEVEL ∨ s = MAXIMIZED ∨ s = FULLSCREEN) :
    targets.foldl (fun v s => weston_desktop_xwayland_surface_change_state sh v s none none) w =
        { w with surface := { w.surface with state := targets.getLast?.getD w.surface.state } } ∧
    (targets.foldl
      (fun v s => weston_desktop_xwayland_surface_change_state sh v s none none) w).trace =
        w.trace ∧
    (targets.foldl
      (fun v s => weston_desktop_xwayland_surface_change_state sh v s none none) w).surface.added =
        true ∧
    (∀ s, targets.getLast? = some s →
      (targets.foldl
        (fun v s => weston_desktop_xwayland_surface_change_state sh v s none none) w).surface.state
          = s) := by
  have key : targets.foldl
      (fun v s => weston_desktop_xwayland_surface_change_state sh v s none none) w =
        { w with surface := { w.surface with state := targets.getLast?.getD w.surface.state } } := by
    induction targets using List.reverseRecOn with
    | nil => simp
    | append_singleton ts t ih =>
      have hts : ∀ s ∈ ts, s = TOPLEVEL ∨ s = MAXIMIZED ∨ s = FULLSCREEN :=
        fun s hs => htargets s (by simp [hs])
      have ht : isManaged t = true := (managed_cases t).mpr (htargets t (by simp))
      rw [List.foldl_append, ih hts]
      simp only [List.foldl_cons, List.foldl_nil]
      rw [change_state_fast_path sh _ t (by simpa using hadded) ht]
      simp
  rw [key]
  refine ⟨rfl, rfl, hadded, ?_⟩
  intro s hs
  simp [hs]

/-- Witness for C1: four managed targets on an added window, with a shell that would call back. -/
theorem change_state_managed_sequence_witness :
    stagedWorld.surface.added = true ∧
    (∀ s ∈ [MAXIMIZED, FULLSCREEN, TOPLEVEL, MAXIMIZED],
      s = TOPLEVEL ∨ s = MAXIMIZED ∨ s = FULLSCREEN) ∧
    ([MAXIMIZED, FULLSCREEN, TOPLEVEL, MAXIMIZED].foldl
      (fun v s => weston_desktop_xwayland_surface_change_state eagerShell v s none none)
      stagedWorld).trace = stagedWorld.trace ∧
    ([MAXIMIZED, FULLSCREEN, TOPLEVEL, MAXIMIZED].foldl
      (fun v s => weston_desktop_xwayland_surface_change_state eagerShell v s none none)
      stagedWorld).surface.state = MAXIMIZED :=
  ⟨rfl, by decide,
    (change_state_managed_sequence eagerShell stagedWorld
      [MAXIMIZED, FULLSCREEN, TOPLEVEL, MAXIMIZED] rfl (by decide)).2.1,
    (change_state_managed_sequence eagerShell stagedWorld
      [MAXIMIZED, FULLSCREEN, TOPLEVEL, MAXIMIZED] rfl (by decide)).2.2.2 MAXIMIZED rfl⟩

/-- Claim C2: at a reachable state of a running program, `change_state` to XWAYLAND from any
other state emits exactly one view creation and exactly one insertion into the overlay
layer; and from state XWAYLAND, `change_state` to any other target that passes the argument
assertions starts with the unlink of the view followed by its destruction, emits no further
unlink or destruction, and leaves `view = NULL`. -/
theorem xwayland_view_lifecycle (sh : Shell) (ops : List Op)
    (hok : (run sh ops).failed = none) :
    ((run sh ops).surface.state ≠ XWAYLAND →
      (emitted (run sh ops)
        (weston_desktop_xwayland_surface_change_state sh (run sh ops) XWAYLAND none none)).countP
          isViewCreate = 1 ∧
      (emitted (run sh ops)
        (weston_desktop_xwayland_surface_change_state sh (run sh ops) XWAYLAND none none)).countP
          isLayerInsert = 1) ∧
    ((run sh ops).surface.state = XWAYLAND →
      ∀ (target : weston_desktop_xwayland_surface_state) (parent : Option Nat)
        (offset : Option weston_coord_surface),
        target ≠ XWAYLAND → target ≠ NONE →
        (parent.isSome = true → target = TRANSIENT ∧ offset.isSome = true) →
        (∃ rest,
          emitted (run sh ops)
            (weston_desktop_xwayland_surface_change_state sh (run sh ops) target parent offset) =
              Event.unlink_view (run sh ops).surface.view ::
                Event.view_destroy (run sh ops).surface.view :: rest ∧
          rest.countP isViewDestroy = 0 ∧ rest.countP isUnlinkView = 0) ∧
        (weston_desktop_xwayland_surface_change_state sh (run sh ops) target parent
          offset).surface.view = none) := by
  constructor
  · intro hs
    obtain ⟨pre, ht, hpre, -⟩ := enter_xwayland_emits sh (run sh ops) hok hs
    rw [emitted_append _ _ _ (by rw [ht, List.append_assoc])]
    have c1 := countP_zero_of_not_view isViewCreate
      (fun e he => by cases e <;> simp_all [isViewCreate, isViewEvent]) pre hpre
    have c2 := countP_zero_of_not_view isLayerInsert
      (fun e he => by cases e <;> simp_all [isLayerInsert, isViewEvent]) pre hpre
    simp [List.countP_append, c1, c2, List.countP_cons, isViewCreate, isLayerInsert]
  · intro hs target parent offset ht hnone hpar
    have ha : (run sh ops).surface.added = false := by
      by_contra hc
      have := (inv_run sh ops).managed (by simpa using hc)
      rw [hs] at this
      simp [isManaged] at this
    obtain ⟨rest, htr, hrest, hv⟩ :=
      leave_xwayland_emits sh (run sh ops) target parent offset hok hs ha ht hnone hpar
    refine ⟨⟨rest, emitted_append _ _ _ htr, ?_, ?_⟩, hv⟩
    · exact countP_zero_of_not_view isViewDestroy
        (fun e he => by cases e <;> simp_all [isViewDestroy, isViewEvent]) rest hrest
    · exact countP_zero_of_not_view isUnlinkView
        (fun e he => by cases e <;> simp_all [isUnlinkView, isViewEvent]) rest hrest

/-- Witness for C2: an added toplevel turned override-redirect and then maximized. -/
theorem xwayland_view_lifecycle_witness :
    (run eagerShell [Op.set_toplevel, Op.set_xwayland 3 4]).failed = none ∧
    (run eagerShell [Op.set_toplevel, Op.set_xwayland 3 4]).surface.state = XWAYLAND ∧
    (∃ rest,
      emitted (run eagerShell [Op.set_toplevel, Op.set_xwayland 3 4])
        (weston_desktop_xwayland_surface_change_state eagerShell
          (run eagerShell [Op.set_toplevel, Op.set_xwayland 3 4]) MAXIMIZED none none) =
          Event.unlink_view (run eagerShell [Op.set_toplevel, Op.set_xwayland 3 4]).surface.view ::
            Event.view_destroy
              (run eagerShell [Op.set_toplevel, Op.set_xwayland 3 4]).surface.view :: rest ∧
      rest.countP isViewDestroy = 0 ∧ rest.countP isUnlinkView = 0) ∧
    (weston_desktop_xwayland_surface_change_state eagerShell
      (run eagerShell [Op.set_toplevel, Op.set_xwayland 3 4]) MAXIMIZED none none).surface.view =
        none :=
  ⟨by decide, by decide,
    ((xwayland_view_lifecycle eagerShell [Op.set_toplevel, Op.set_xwayland 3 4]
      (by decide)).2 (by decide) MAXIMIZED none none (by decide) (by decide) (by simp)).1,
    ((xwayland_view_lifecycle eagerShell [Op.set_toplevel, Op.set_xwayland 3 4]
      (by decide)).2 (by decide) MAXIMIZED none none (by decide) (by decide) (by simp)).2⟩

/-- Counterexample to C3: after `set_xwayland` and one commit the record has never been added and
has `committed = true`; the next `change_state(TOPLEVEL)` emits surface-added and no committed
notification, because the state is XWAYLAND and not NONE. -/
theorem fake_commit_skipped_outside_none :
    (run quietShell [Op.set_xwayland 0 0, Op.committed 0 0]).surface.committed = true ∧
    (run quietShell [Op.set_xwayland 0 0, Op.committed 0 0]).trace.count
      Event.api_surface_added = 0 ∧
    (emitted (run quietShell [Op.set_xwayland 0 0, Op.committed 0 0])
      (weston_desktop_xwayland_surface_change_state quietShell
        (run quietShell [Op.set_xwayland 0 0, Op.committed 0 0]) TOPLEVEL none none)).count
          Event.api_surface_added = 1 ∧
    (emitted (run quietShell [Op.set_xwayland 0 0, Op.committed 0 0])
      (weston_desktop_xwayland_surface_change_state quietShell
        (run quietShell [Op.set_xwayland 0 0, Op.committed 0 0]) TOPLEVEL none none)).countP
          isApiCommitted = 0 := by
  decide

/-- Claim C3 as amended: at a reachable state of a running program with `state = NONE` and
`committed = true`, a `change_state` without parent to a target other than XWAYLAND emits
surface-added and then, in the same call, exactly one committed notification, with offset
(0, 0), provided the shell does not call `set_fullscreen` back while surface-added is being
delivered; all other events after surface-added are calls to the X window manager. -/
theorem fake_commit_on_first_add (sh : Shell) (ops : List Op)
    (target : weston_desktop_xwayland_surface_state)
    (hok : (run sh ops).failed = none)
    (hs : (run sh ops).surface.state = NONE)
    (hc : (run sh ops).surface.committed = true)
    (ht1 : target ≠ NONE) (ht2 : target ≠ XWAYLAND)
    (hq : ∀ b, ShellCall.set_fullscreen b ∉
      sh ((run sh ops).trace ++ [Event.unset_relative_to, Event.api_surface_added])) :
    ∃ es1 es2,
      emitted (run sh ops)
        (weston_desktop_xwayland_surface_change_state sh (run sh ops) target none none) =
          Event.unset_relative_to :: Event.api_surface_added ::
            (es1 ++ Event.api_committed 0 0 :: es2) ∧
      (∀ e ∈ es1, isClientEvent e = true) ∧ (∀ e ∈ es2, isClientEvent e = true) := by
  have ha : (run sh ops).surface.added = false := by
    by_contra hcn
    have := (inv_run sh ops).managed (by simpa using hcn)
    rw [hs] at this
    simp [isManaged] at this
  have ho := fsOverride_none_of_not_mem _ hq
  rw [change_state_phases sh (run sh ops) target none none hok ht1 (by simp) (by simp [ha])
    (by rw [hs]; exact fun h => ht1 h.symm) (fun _ => ha)]
  have hl : change_state_leave
      { (run sh ops) with surface := { (run sh ops).surface with state_updated := false } } =
      { (run sh ops) with surface := { (run sh ops).surface with state_updated := false } } := by
    simp [change_state_leave, hs]
  rw [hl]
  have hb : (Option.isNone (none : Option Nat) && decide (target ≠ XWAYLAND)) = true := by
    simp [ht2]
  rw [hb]
  have hadd : ∃ es2,
      (change_state_add sh
        { (run sh ops) with surface := { (run sh ops).surface with state_updated := false } }
        true).trace =
      (run sh ops).trace ++ Event.unset_relative_to :: Event.api_surface_added ::
        (callEvents (sh ((run sh ops).trace ++
          [Event.unset_relative_to, Event.api_surface_added])) ++
          Event.api_committed 0 0 :: es2) ∧ (∀ e ∈ es2, isClientEvent e = true) := by
    simp only [change_state_add, notify_shell_eq, weston_desktop_surface_unset_relative_to,
      emit, if_true, stateAfter, List.append_assoc, List.singleton_append, ho, hs, hc,
      and_self]
    exact ⟨_, rfl, callEvents_client _⟩
  obtain ⟨es2, htr, hes2⟩ := hadd
  generalize change_state_add sh
    { (run sh ops) with surface := { (run sh ops).surface with state_updated := false } }
    true = v2 at *
  have he : change_state_enter v2 target = v2 := by simp [change_state_enter, ht2]
  rw [he]
  obtain ⟨s1, -, -, -, -, -⟩ := assign_spec v2 target
  refine ⟨callEvents (sh ((run sh ops).trace ++
    [Event.unset_relative_to, Event.api_surface_added])), es2, ?_, callEvents_client _, hes2⟩
  apply emitted_append
  show (change_state_assign v2 target).trace = _
  rw [s1, htr]

/-- Witness for C3 as amended: a commit before `set_toplevel`. -/
theorem fake_commit_on_first_add_witness :
    (run quietShell [Op.committed 3 4]).failed = none ∧
    (run quietShell [Op.committed 3 4]).surface.state = NONE ∧
    (run quietShell [Op.committed 3 4]).surface.committed = true ∧
    ∃ es1 es2,
      emitted (run quietShell [Op.committed 3 4])
        (weston_desktop_xwayland_surface_change_state quietShell
          (run quietShell [Op.committed 3 4]) TOPLEVEL none none) =
          Event.unset_relative_to :: Event.api_surface_added ::
            (es1 ++ Event.api_committed 0 0 :: es2) ∧
      (∀ e ∈ es1, isClientEvent e = true) ∧ (∀ e ∈ es2, isClientEvent e = true) :=
  ⟨by decide, by decide, by decide,
    fake_commit_on_first_add quietShell [Op.committed 3 4] TOPLEVEL (by decide) (by decide)
      (by decide) (by decide) (by decide) (by simp [quietShell])⟩

/-- Counterexample to C4: a `set_fullscreen` notification from the shell on an override-redirect
window, delivered between calls or from inside the surface-removed callback of the transition
into XWAYLAND, leaves a view on a record whose state is FULLSCREEN. -/
theorem view_kept_after_shell_fullscreen :
    ((run quietShell [Op.set_xwayland 0 0, Op.shell_set_fullscreen true]).surface.view ≠ none ∧
      (run quietShell [Op.set_xwayland 0 0, Op.shell_set_fullscreen true]).surface.state ≠
        XWAYLAND) ∧
    ((run rudeShell [Op.set_toplevel, Op.set_xwayland 0 0]).surface.view ≠ none ∧
      (run rudeShell [Op.set_toplevel, Op.set_xwayland 0 0]).surface.state ≠ XWAYLAND) := by
  decide

/-- Claim C4 as amended: at every reachable state, `state = XWAYLAND` implies `view` is not NULL;
and when the shell delivers `set_fullscreen` only for a window it currently holds, `view` is
not NULL if and only if `state = XWAYLAND`. -/
theorem view_iff_xwayland (sh : Shell) (ops : List Op) :
    ((run sh ops).surface.state = XWAYLAND → (run sh ops).surface.view ≠ none) ∧
    (Polite sh → politeRun sh initial ops = true →
      ((run sh ops).surface.view ≠ none ↔ (run sh ops).surface.state = XWAYLAND)) := by
  have hv := (inv_run sh ops).has_view
  have hv2 : (run sh ops).surface.state = XWAYLAND → (run sh ops).surface.view ≠ none := by
    intro hs hn
    have := hv hs
    rw [hn] at this
    simp at this
  refine ⟨hv2, fun hp hr => ⟨fun hne => ?_, hv2⟩⟩
  exact (disc_run sh ops hp hr).view_state (Option.isSome_iff_ne_none.mpr hne)

/-- Witness for C4 as amended: a shell that calls back whenever it holds the window. -/
theorem view_iff_xwayland_witness :
    Polite eagerShell ∧
    politeRun eagerShell initial
      [Op.set_xwayland 0 0, Op.set_fullscreen none, Op.shell_set_fullscreen false,
        Op.set_xwayland 1 1] = true ∧
    ((run eagerShell [Op.set_xwayland 0 0, Op.set_fullscreen none, Op.shell_set_fullscreen false,
        Op.set_xwayland 1 1]).surface.view ≠ none ↔
      (run eagerShell [Op.set_xwayland 0 0, Op.set_fullscreen none, Op.shell_set_fullscreen false,
        Op.set_xwayland 1 1]).surface.state = XWAYLAND) :=
  ⟨polite_eager, by decide,
    (view_iff_xwayland eagerShell [Op.set_xwayland 0 0, Op.set_fullscreen none,
      Op.shell_set_fullscreen false, Op.set_xwayland 1 1]).2 polite_eager (by decide)⟩

/-- Counterexample to C5: the parent relation set by `set_transient` is still active after
`set_xwayland` (state XWAYLAND), and after a `set_fullscreen` notification from the shell
(state FULLSCREEN). -/
theorem parent_kept_outside_transient :
    ((run quietShell [Op.set_transient ⟨7, true⟩ ⟨1, 2, 7⟩, Op.set_xwayland 0 0]).relative_to =
        some (7, 1, 2) ∧
      (run quietShell [Op.set_transient ⟨7, true⟩ ⟨1, 2, 7⟩, Op.set_xwayland 0 0]).surface.state ≠
        TRANSIENT) ∧
    ((run quietShell [Op.set_transient ⟨7, true⟩ ⟨1, 2, 7⟩,
        Op.shell_set_fullscreen true]).relative_to = some (7, 1, 2) ∧
      (run quietShell [Op.set_transient ⟨7, true⟩ ⟨1, 2, 7⟩,
        Op.shell_set_fullscreen true]).surface.state = FULLSCREEN) := by
  decide

/-- Claim C5 as amended: when the shell delivers `set_fullscreen` only for a window it currently
holds, a record with an active parent relation set by `change_state` is in state TRANSIENT
or XWAYLAND, at every reachable state. -/
theorem parent_relation_states (sh : Shell) (ops : List Op) (hp : Polite sh)
    (hr : politeRun sh initial ops = true) (hrel : (run sh ops).relative_to ≠ none) :
    (run sh ops).surface.state = TRANSIENT ∨ (run sh ops).surface.state = XWAYLAND :=
  (disc_run sh ops hp hr).parent_state (Option.isSome_iff_ne_none.mpr hrel)

/-- Witness for C5 as amended: toplevel, then transient, then override-redirect. -/
theorem parent_relation_states_witness :
    Polite eagerShell ∧
    politeRun eagerShell initial
      [Op.set_toplevel, Op.set_transient ⟨7, true⟩ ⟨1, 2, 7⟩, Op.set_xwayland 0 0] = true ∧
    (run eagerShell
      [Op.set_toplevel, Op.set_transient ⟨7, true⟩ ⟨1, 2, 7⟩, Op.set_xwayland 0 0]).relative_to ≠
        none ∧
    ((run eagerShell [Op.set_toplevel, Op.set_transient ⟨7, true⟩ ⟨1, 2, 7⟩,
        Op.set_xwayland 0 0]).surface.state = TRANSIENT ∨
      (run eagerShell [Op.set_toplevel, Op.set_transient ⟨7, true⟩ ⟨1, 2, 7⟩,
        Op.set_xwayland 0 0]).surface.state = XWAYLAND) :=
  ⟨polite_eager, by decide, by decide,
    parent_relation_states eagerShell
      [Op.set_toplevel, Op.set_transient ⟨7, true⟩ ⟨1, 2, 7⟩, Op.set_xwayland 0 0]
      polite_eager (by decide) (by decide)⟩

/-- Claim C6: at every reachable state, `added = true` implies `state` is not XWAYLAND and no
parent relation set by `change_state` is active. -/
theorem added_excludes_xwayland_and_parent (sh : Shell) (ops : List Op)
    (h : (run sh ops).surface.added = true) :
    (run sh ops).surface.state ≠ XWAYLAND ∧ (run sh ops).relative_to = none := by
  obtain ⟨-, h2, h3, -⟩ := inv_run sh ops
  refine ⟨?_, h3 h⟩
  intro hs
  have := h2 h
  rw [hs] at this
  simp [isManaged] at this

/-- Witness for C6: the record after `set_toplevel`. -/
theorem added_excludes_xwayland_and_parent_witness :
    (run quietShell [Op.set_toplevel]).surface.added = true ∧
    (run quietShell [Op.set_toplevel]).surface.state ≠ XWAYLAND ∧
    (run quietShell [Op.set_toplevel]).relative_to = none :=
  ⟨by decide, added_excludes_xwayland_and_parent quietShell [Op.set_toplevel] (by decide)⟩

/-- Claim C7: in the trace of any sequence of outside calls from `create_surface`, whatever the
shell calls back, surface-added and surface-removed strictly alternate starting with
surface-added; and this still holds once `weston_desktop_xwayland_surface_destroy` has run. -/
theorem added_removed_alternate (sh : Shell) (ops : List Op) :
    alternates false (run sh ops).trace = true ∧
    alternates false (weston_desktop_xwayland_surface_destroy sh (run sh ops)).trace = true := by
  have h := (inv_run sh ops).paired
  constructor
  · rw [alternates_iff]
    change (pairing (run sh ops).trace).isSome = true
    rw [h]; rfl
  · rw [alternates_iff]
    change (pairing _).isSome = true
    simp only [weston_desktop_xwayland_surface_destroy, weston_desktop_surface_unset_relative_to,
      emit, notify_shell_eq]
    split_ifs with h1 h2
    · simp only [] at h1
      simp [pairing_append, h, h1, track, List.foldl_append, foldl_track_callEvents]
    · cases ha : (run sh ops).surface.added <;>
        simp_all [pairing_append, track, List.foldl_append]
    · cases ha : (run sh ops).surface.added <;>
        simp_all [pairing_append, track, List.foldl_append]

/-- Claim C8: on a record with `added`, `has_next_geometry` and `state = prev_state`, `committed`
forwards exactly one committed notification, with offset
`(sx - (next_geometry.x - oldgeom.x), sy - (next_geometry.y - oldgeom.y))` in `int32_t`
arithmetic, which is the exact integer value whenever the differences fit in `int32_t`; with
geometry (10,10,100,50) staged over (0,0,100,50) and raw offset (5,5) it is (-5,-5). -/
theorem committed_offset_adjusted (sh : Shell) (w : World) (sx sy : Int)
    (hadded : w.surface.added = true) (hgeom : w.surface.has_next_geometry = true)
    (hstate : w.surface.state = w.surface.prev_state) :
    (emitted w (weston_desktop_xwayland_surface_committed sh w sx sy)).filter isApiCommitted =
      [Event.api_committed (sub32 sx (sub32 w.surface.next_geometry.x w.geometry.x))
        (sub32 sy (sub32 w.surface.next_geometry.y w.geometry.y))] ∧
    (inInt32 (w.surface.next_geometry.x - w.geometry.x) →
      inInt32 (sx - (w.surface.next_geometry.x - w.geometry.x)) →
      sub32 sx (sub32 w.surface.next_geometry.x w.geometry.x) =
        sx - (w.surface.next_geometry.x - w.geometry.x)) ∧
    (inInt32 (w.surface.next_geometry.y - w.geometry.y) →
      inInt32 (sy - (w.surface.next_geometry.y - w.geometry.y)) →
      sub32 sy (sub32 w.surface.next_geometry.y w.geometry.y) =
        sy - (w.surface.next_geometry.y - w.geometry.y)) ∧
    (w.surface.next_geometry = ⟨10, 10, 100, 50⟩ → w.geometry = ⟨0, 0, 100, 50⟩ →
      sx = 5 → sy = 5 →
      (emitted w (weston_desktop_xwayland_surface_committed sh w sx sy)).filter isApiCommitted =
        [Event.api_committed (-5) (-5)]) := by
  have first : (emitted w (weston_desktop_xwayland_surface_committed sh w sx sy)).filter
      isApiCommitted =
      [Event.api_committed (sub32 sx (sub32 w.surface.next_geometry.x w.geometry.x))
        (sub32 sy (sub32 w.surface.next_geometry.y w.geometry.y))] := by
    have hc := filter_client isApiCommitted (fun e he => by cases e <;> simp_all [isClientEvent, isApiCommitted])
    simp only [weston_desktop_xwayland_surface_committed, hgeom, hstate, hadded, if_true,
      weston_desktop_surface_set_geometry, weston_desktop_surface_get_geometry, emit,
      notify_shell_eq]
    split_ifs
    · rw [emitted_append _ _ (_ ++ _) (by simp only [List.append_assoc]; rfl)]
      simp [List.filter_append, List.filter_cons, isApiCommitted,
        hc _ (callEvents_client _)]
    · rw [emitted_append _ _ (_ ++ _) (by simp only [List.append_assoc]; rfl)]
      simp [List.filter_append, List.filter_cons, isApiCommitted,
        hc _ (callEvents_client _)]
  refine ⟨first, ?_, ?_, ?_⟩
  · intro h1 h2
    unfold sub32
    rw [wrap32_of_inInt32 _ h1, wrap32_of_inInt32 _ h2]
  · intro h1 h2
    unfold sub32
    rw [wrap32_of_inInt32 _ h1, wrap32_of_inInt32 _ h2]
  · intro h1 h2 h3 h4
    rw [first, h1, h2, h3, h4]
    rfl

/-- Witness for C8: geometry (10,10,100,50) staged over (0,0,100,50) and raw offset (5,5) are
forwarded as (-5,-5). -/
theorem committed_offset_adjusted_witness :
    stagedWorld.surface.added = true ∧ stagedWorld.surface.has_next_geometry = true ∧
    stagedWorld.surface.state = stagedWorld.surface.prev_state ∧
    (emitted stagedWorld
      (weston_desktop_xwayland_surface_committed quietShell stagedWorld 5 5)).filter
        isApiCommitted = [Event.api_committed (-5) (-5)] :=
  ⟨rfl, rfl, rfl, (committed_offset_adjusted quietShell stagedWorld 5 5 rfl rfl rfl).1⟩

/-- Claim C9: create, `set_toplevel`, commit(0,0), `set_maximized`, commit(0,0) against a shell
that never calls back gives exactly one surface-added, one maximized-requested(true), two
committed and no surface-removed notification, and ends with `state = MAXIMIZED` and
`added = true`. -/
theorem scenario_toplevel_maximized :
    (run quietShell [Op.set_toplevel, Op.committed 0 0, Op.set_maximized,
      Op.committed 0 0]).trace.count Event.api_surface_added = 1 ∧
    (run quietShell [Op.set_toplevel, Op.committed 0 0, Op.set_maximized,
      Op.committed 0 0]).trace.count (Event.api_maximized_requested true) = 1 ∧
    (run quietShell [Op.set_toplevel, Op.committed 0 0, Op.set_maximized,
      Op.committed 0 0]).trace.countP isApiCommitted = 2 ∧
    (run quietShell [Op.set_toplevel, Op.committed 0 0, Op.set_maximized,
      Op.committed 0 0]).trace.count Event.api_surface_removed = 0 ∧
    (run quietShell [Op.set_toplevel, Op.committed 0 0, Op.set_maximized,
      Op.committed 0 0]).surface.state = MAXIMIZED ∧
    (run quietShell [Op.set_toplevel, Op.committed 0 0, Op.set_maximized,
      Op.committed 0 0]).surface.added = true := by
  decide

/-- Claim C10: `weston_desktop_xwayland_surface_destroy` first clears the parent relation; after
that it emits exactly one surface-removed and no unlink if `added`, exactly one unlink of
`view` and no surface-removed if not `added` and `state = XWAYLAND`, and neither otherwise. -/
theorem destroy_emits (sh : Shell) (w : World) :
    (weston_desktop_xwayland_surface_destroy sh w).relative_to = none ∧
    ∃ rest,
      (weston_desktop_xwayland_surface_destroy sh w).trace =
        w.trace ++ Event.list_remove_destroy_listener :: Event.unset_relative_to :: rest ∧
      rest.filter isRemovedOrUnlink =
        if w.surface.added = true then [Event.api_surface_removed]
        else if w.surface.state = XWAYLAND then [Event.unlink_view w.surface.view]
        else [] := by
  have hc := filter_client isRemovedOrUnlink
    (fun e he => by cases e <;> simp_all [isClientEvent, isRemovedOrUnlink])
  simp only [weston_desktop_xwayland_surface_destroy, weston_desktop_surface_unset_relative_to,
    emit, notify_shell_eq]
  split_ifs with h1 h2
  · refine ⟨rfl, _, by simp only [List.append_assoc]; rfl, ?_⟩
    simp [List.filter_cons, List.filter_append, isRemovedOrUnlink, hc _ (callEvents_client _)]
  · refine ⟨rfl, _, by simp only [List.append_assoc]; rfl, ?_⟩
    simp [List.filter_cons, isRemovedOrUnlink]
  · refine ⟨rfl, _, by simp only [List.append_assoc]; rfl, ?_⟩
    simp [List.filter_cons, isRemovedOrUnlink]

/-! ## The claims, continued -/

theorem ext_refl (p : Event → Bool) (a : World) : TraceExt p a a :=
  ⟨[], by simp, by simp⟩

theorem ext_trans (p : Event → Bool) (a b c : World) (h1 : TraceExt p a b)
    (h2 : TraceExt p b c) : TraceExt p a c := by
  obtain ⟨es1, t1, q1⟩ := h1
  obtain ⟨es2, t2, q2⟩ := h2
  refine ⟨es1 ++ es2, by rw [t2, t1, List.append_assoc], ?_⟩
  intro e he
  rcases List.mem_append.mp he with h | h
  · exact q1 e h
  · exact q2 e h

theorem ext_of_trace_eq (p : Event → Bool) (a b : World) (h : b.trace = a.trace) :
    TraceExt p a b :=
  ⟨[], by simp [h], by simp⟩

theorem ext_emit (p : Event → Bool) (a : World) (e : Event) (he : p e = true) :
    TraceExt p a (emit a e) :=
  ⟨[e], rfl, by simpa using he⟩

theorem ext_notify (p : Event → Bool) (hp : ∀ e, isClientEvent e = true → p e = true)
    (sh : Shell) (a : World) (e : Event) (he : p e = true) :
    TraceExt p a (notify_shell sh a e) := by
  rw [notify_shell_eq]
  refine ⟨e :: callEvents (sh (a.trace ++ [e])), rfl, ?_⟩
  intro x hx
  rcases List.mem_cons.mp hx with rfl | hx
  · exact he
  · exact hp x (callEvents_client _ x hx)

theorem ext_whenOk (p : Event → Bool) (a w : World) (k : World → World)
    (h : TraceExt p a w) (hk : ∀ v, TraceExt p v (k v)) : TraceExt p a (whenOk w k) := by
  unfold whenOk
  split_ifs
  · exact h
  · exact ext_trans p a w _ h (hk w)

theorem transition_of_client (e : Event) (h : isClientEvent e = true) :
    isTransitionEvent e = true := by
  cases e <;> simp_all [isClientEvent, isTransitionEvent]

theorem leave_ext (w : World) : TraceExt isTransitionEvent w (change_state_leave w) := by
  unfold change_state_leave
  split_ifs
  · exact ext_of_trace_eq _ _ _ rfl
  · exact ⟨_, by simp only [emit, List.append_assoc]; rfl, by simp [isTransitionEvent]⟩
  · exact ext_refl _ _

theorem add_ext (sh : Shell) (w : World) (b : Bool) :
    TraceExt isTransitionEvent w (change_state_add sh w b) := by
  unfold TraceExt
  simp only [change_state_add, notify_shell_eq, weston_desktop_surface_unset_relative_to, emit]
  split_ifs
  · refine ⟨_, by simp only [List.append_assoc]; rfl, ?_⟩
    intro e he
    simp only [List.cons_append, List.nil_append, List.mem_cons, List.mem_append] at he
    rcases he with rfl | rfl | he | rfl | he
    · rfl
    · rfl
    · exact transition_of_client e (callEvents_client _ e he)
    · rfl
    · exact transition_of_client e (callEvents_client _ e he)
  · refine ⟨_, by simp only [List.append_assoc]; rfl, ?_⟩
    intro e he
    simp only [List.cons_append, List.nil_append, List.mem_cons, List.mem_append] at he
    rcases he with rfl | rfl | he
    · rfl
    · rfl
    · exact transition_of_client e (callEvents_client _ e he)
  · refine ⟨_, rfl, ?_⟩
    intro e he
    simp only [List.mem_cons] at he
    rcases he with rfl | he
    · rfl
    · exact transition_of_client e (callEvents_client _ e he)
  · exact ⟨[], by simp, by simp⟩

theorem enter_ext (w : World) (t : weston_desktop_xwayland_surface_state) :
    TraceExt isTransitionEvent w (change_state_enter w t) := by
  unfold change_state_enter
  split_ifs
  · exact ext_of_trace_eq _ _ _ rfl
  · exact ⟨_, by simp only [emit, weston_desktop_surface_create_view, List.append_assoc]; rfl,
      by simp [isTransitionEvent]⟩
  · exact ext_refl _ _

theorem assign_ext (w : World) (t : weston_desktop_xwayland_surface_state) :
    TraceExt isTransitionEvent w (change_state_assign w t) := by
  unfold change_state_assign
  split_ifs
  · exact ext_of_trace_eq _ _ _ rfl
  · exact ext_refl _ _

theorem parent_ext (w : World) (parent : Option Nat) (offset : Option weston_coord_surface) :
    TraceExt isTransitionEvent w (change_state_parent w parent offset) := by
  unfold change_state_parent
  split
  · split_ifs
    · exact ⟨_, rfl, by simp [isTransitionEvent]⟩
    · exact ext_of_trace_eq _ _ _ rfl
  · exact ext_refl _ _

theorem change_state_ext (sh : Shell) (w : World)
    (target : weston_desktop_xwayland_surface_state) (parent : Option Nat)
    (offset : Option weston_coord_surface) :
    TraceExt isTransitionEvent w
      (weston_desktop_xwayland_surface_change_state sh w target parent offset) := by
  unfold weston_desktop_xwayland_surface_change_state
  simp only
  split_ifs
  · exact ext_of_trace_eq _ _ _ rfl
  · exact ext_of_trace_eq _ _ _ rfl
  · exact ext_of_trace_eq _ _ _ rfl
  · exact ext_of_trace_eq _ _ _ rfl
  · apply ext_whenOk
    · apply ext_whenOk
      · apply ext_whenOk
        · apply ext_whenOk
          · exact ext_trans _ _ _ _ (ext_of_trace_eq _ _ _ rfl) (leave_ext _)
          · exact fun v => add_ext sh v _
        · exact fun v => enter_ext v _
      · exact fun v => assign_ext v _
    · exact fun v => parent_ext v _ _
  · apply ext_whenOk
    · exact ext_of_trace_eq _ _ _ rfl
    · exact fun v => parent_ext v _ _

theorem parent_failed (v : World) (parent : Option Nat) (offset : Option weston_coord_surface) :
    (change_state_parent v parent offset).failed = v.failed ∨
    ((change_state_parent v parent offset).failed = some Assertion.offset_in_parent_space ∧
      parent.isSome = true) := by
  unfold change_state_parent
  split
  · split_ifs
    · left; rfl
    · right; exact ⟨rfl, rfl⟩
  · left; rfl

/-- Which `assert` can have failed when `change_state` stops: never one of the two
`assert(!surface->added)`, as long as an XWAYLAND record is not added. -/
theorem change_state_failed (sh : Shell) (w : World)
    (target : weston_desktop_xwayland_surface_state) (parent : Option Nat)
    (offset : Option weston_coord_surface) (hok : w.failed = none)
    (hx : w.surface.state = XWAYLAND → w.surface.added = false) :
    (weston_desktop_xwayland_surface_change_state sh w target parent offset).failed = none ∨
    ((weston_desktop_xwayland_surface_change_state sh w target parent offset).failed =
        some Assertion.state_not_none ∧ target = NONE) ∨
    ((weston_desktop_xwayland_surface_change_state sh w target parent offset).failed =
        some Assertion.parent_implies_transient ∧ parent.isSome = true) ∨
    ((weston_desktop_xwayland_surface_change_state sh w target parent offset).failed =
        some Assertion.parent_implies_offset ∧ parent.isSome = true) ∨
    ((weston_desktop_xwayland_surface_change_state sh w target parent offset).failed =
        some Assertion.offset_in_parent_space ∧ parent.isSome = true) := by
  by_cases hnone : target = NONE
  · right; left
    refine ⟨?_, hnone⟩
    unfold weston_desktop_xwayland_surface_change_state
    simp only [if_pos hnone]; rfl
  by_cases e1 : parent.isSome = true ∧ target ≠ TRANSIENT
  · right; right; left
    refine ⟨?_, e1.1⟩
    unfold weston_desktop_xwayland_surface_change_state
    simp only [if_neg hnone, if_pos e1]; rfl
  by_cases e2 : parent.isSome = true ∧ offset.isNone = true
  · right; right; right; left
    refine ⟨?_, e2.1⟩
    unfold weston_desktop_xwayland_surface_change_state
    simp only [if_neg hnone, if_neg e1, if_pos e2]; rfl
  have hpar2 : parent.isSome = true → target = TRANSIENT ∧ offset.isSome = true := by
    intro hp
    refine ⟨by_contra fun hc => e1 ⟨hp, hc⟩, ?_⟩
    cases offset with
    | none => exact absurd ⟨hp, rfl⟩ e2
    | some _ => rfl
  by_cases hfast : (parent.isNone && decide (target ≠ XWAYLAND)) = true ∧ w.surface.added = true
  · left
    unfold weston_desktop_xwayland_surface_change_state
    simp only [if_neg hnone, if_neg e1, if_neg e2, if_pos hfast]
    exact hok
  by_cases heq : w.surface.state = target
  · rw [change_state_same sh w target parent offset hok hnone hpar2 hfast heq]
    rcases parent_failed { w with surface := { w.surface with state_updated := false } }
      parent offset with h | h
    · left; rw [h]; exact hok
    · right; right; right; right; exact h
  · rw [change_state_phases sh w target parent offset hok hnone hpar2 hfast heq hx]
    have f1 := leave_failed { w with surface := { w.surface with state_updated := false } } hx
    have f2 := add_failed sh
      (change_state_leave { w with surface := { w.surface with state_updated := false } })
      (parent.isNone && decide (target ≠ XWAYLAND))
    have f3 := enter_failed (change_state_add sh
      (change_state_leave { w with surface := { w.surface with state_updated := false } })
      (parent.isNone && decide (target ≠ XWAYLAND))) target
      (by intro ht; rw [add_added]; simp [ht])
    have f4 := assign_failed (change_state_enter (change_state_add sh
      (change_state_leave { w with surface := { w.surface with state_updated := false } })
      (parent.isNone && decide (target ≠ XWAYLAND))) target) target
    rcases parent_failed (change_state_assign (change_state_enter (change_state_add sh
      (change_state_leave { w with surface := { w.surface with state_updated := false } })
      (parent.isNone && decide (target ≠ XWAYLAND))) target) target) parent offset with h | h
    · left; rw [h, f4, f3, f2, f1]; exact hok
    · right; right; right; right; exact h

theorem change_state_ok_of_no_parent (sh : Shell) (w : World)
    (target : weston_desktop_xwayland_surface_state) (hok : w.failed = none)
    (hx : w.surface.state = XWAYLAND → w.surface.added = false) (ht : target ≠ NONE) :
    (weston_desktop_xwayland_surface_change_state sh w target none none).failed = none := by
  rcases change_state_failed sh w target none none hok hx with h | h | h | h | h
  · exact h
  · exact absurd h.2 ht
  · simp at h
  · simp at h
  · simp at h

/-- Claim C11: with a parent that is not a desktop surface, `set_transient` and `set_parent`
return the world as it was: no field of the record changes and no event is emitted. -/
theorem non_desktop_parent_ignored (sh : Shell) (w : World) (wparent : weston_surface)
    (offset : weston_coord_surface)
    (h : weston_surface_is_desktop_surface wparent = false) :
    set_transient sh w wparent offset = w ∧ set_parent sh w wparent = w := by
  simp [set_transient, set_parent, h]

/-- Witness for C11: an added toplevel and a parent surface 7 that is not a desktop surface. -/
theorem non_desktop_parent_ignored_witness :
    weston_surface_is_desktop_surface ⟨7, false⟩ = false ∧
    set_transient eagerShell stagedWorld ⟨7, false⟩ ⟨1, 2, 7⟩ = stagedWorld ∧
    set_parent eagerShell stagedWorld ⟨7, false⟩ = stagedWorld :=
  ⟨rfl, non_desktop_parent_ignored eagerShell stagedWorld ⟨7, false⟩ ⟨1, 2, 7⟩ rfl⟩

theorem filter_of_ext (p q : Event → Bool) (hpq : ∀ e, p e = true → q e = false)
    (a b : World) (h : TraceExt p a b) : (emitted a b).filter q = [] := by
  obtain ⟨es, ht, hes⟩ := h
  rw [emitted_append a b es ht, List.filter_eq_nil_iff]
  intro e he
  rw [hpq e (hes e he)]
  simp

/-- Claim C13: in a running program `set_toplevel` emits fullscreen-requested(false, no
output) exactly when the state was FULLSCREEN before the call, and then after everything the
`change_state(TOPLEVEL, NULL, NULL)` transition emitted, which contains no
fullscreen-requested notification; from any other state it emits none. -/
theorem set_toplevel_fullscreen_request (sh : Shell) (w : World) (hok : w.failed = none) :
    (w.surface.state = FULLSCREEN →
      (emitted w (weston_desktop_xwayland_surface_change_state sh w TOPLEVEL none none)).filter
        isFullscreenRequested = [] ∧
      ∃ es,
        (set_toplevel sh w).trace =
          (weston_desktop_xwayland_surface_change_state sh w TOPLEVEL none none).trace ++
            Event.api_fullscreen_requested false none :: es ∧
        ∀ e ∈ es, isClientEvent e = true) ∧
    (w.surface.state ≠ FULLSCREEN →
      (emitted w (set_toplevel sh w)).filter isFullscreenRequested = []) := by
  have hext := change_state_ext sh w TOPLEVEL none none
  have hnone : (emitted w
      (weston_desktop_xwayland_surface_change_state sh w TOPLEVEL none none)).filter
        isFullscreenRequested = [] :=
    filter_of_ext _ _ (fun e he => by cases e <;> simp_all [isTransitionEvent,
      isFullscreenRequested]) _ _ hext
  constructor
  · intro hs
    have hf := change_state_ok_of_no_parent sh w TOPLEVEL hok (by simp [hs]) (by simp)
    refine ⟨hnone, ?_⟩
    unfold set_toplevel
    simp only [hs, if_true]
    rw [whenOk_of_ok _ _ hf, notify_shell_eq]
    exact ⟨_, rfl, callEvents_client _⟩
  · intro hs
    unfold set_toplevel
    simp only [if_neg hs]
    unfold whenOk
    split_ifs <;> exact hnone

/-- Witness for C13: `set_toplevel` on a window made fullscreen by `set_fullscreen`. -/
theorem set_toplevel_fullscreen_request_witness :
    (run quietShell [Op.set_fullscreen none]).failed = none ∧
    (run quietShell [Op.set_fullscreen none]).surface.state = FULLSCREEN ∧
    (emitted (run quietShell [Op.set_fullscreen none])
      (set_toplevel quietShell (run quietShell [Op.set_fullscreen none]))).filter
        isFullscreenRequested = [Event.api_fullscreen_requested false none] ∧
    ∃ es,
      (set_toplevel quietShell (run quietShell [Op.set_fullscreen none])).trace =
        (weston_desktop_xwayland_surface_change_state quietShell
          (run quietShell [Op.set_fullscreen none]) TOPLEVEL none none).trace ++
          Event.api_fullscreen_requested false none :: es ∧
      ∀ e ∈ es, isClientEvent e = true :=
  ⟨by decide, by decide, by decide,
    ((set_toplevel_fullscreen_request quietShell (run quietShell [Op.set_fullscreen none])
      (by decide)).1 (by decide)).2⟩

/-- Claim C15: `get_maximized` is true exactly when the state of the record is MAXIMIZED and
`get_fullscreen` exactly when it is FULLSCREEN, whether the state was last written by a
transition or by a `set_fullscreen` notification of the shell; they are never both true, and
calling them leaves the world as it was. -/
theorem getters_read_state (sh : Shell) (w : World) (b : Bool) :
    (weston_desktop_xwayland_surface_get_maximized w = true ↔ w.surface.state = MAXIMIZED) ∧
    (weston_desktop_xwayland_surface_get_fullscreen w = true ↔ w.surface.state = FULLSCREEN) ∧
    ¬ (weston_desktop_xwayland_surface_get_maximized w = true ∧
      weston_desktop_xwayland_surface_get_fullscreen w = true) ∧
    perform sh w Op.shell_get_maximized = w ∧ perform sh w Op.shell_get_fullscreen = w ∧
    (weston_desktop_xwayland_surface_get_fullscreen
      (weston_desktop_xwayland_surface_set_fullscreen w b) = b ∧
     weston_desktop_xwayland_surface_get_maximized
      (weston_desktop_xwayland_surface_set_fullscreen w b) = false) := by
  refine ⟨by simp [weston_desktop_xwayland_surface_get_maximized],
    by simp [weston_desktop_xwayland_surface_get_fullscreen], ?_, rfl, rfl, ?_⟩
  · intro h
    simp only [weston_desktop_xwayland_surface_get_maximized,
      weston_desktop_xwayland_surface_get_fullscreen, decide_eq_true_eq] at h
    rw [h.1] at h
    simp at h
  · cases b <;>
      simp [weston_desktop_xwayland_surface_get_maximized,
        weston_desktop_xwayland_surface_get_fullscreen,
        weston_desktop_xwayland_surface_set_fullscreen, emit]

theorem stateAfter_none (calls : List ShellCall) (s : weston_desktop_xwayland_surface_state)
    (h : fsOverride calls = none) : stateAfter calls s = s := by
  simp [stateAfter, h]

/-- Counterexample to C14: the shell calls `set_fullscreen(true)` back from its move (resize)
callback; when `move` (`resize`) returns, the state of the toplevel record is FULLSCREEN. -/
theorem move_lets_shell_change_state :
    (run grabShell [Op.set_toplevel]).surface.state = TOPLEVEL ∧
    (move grabShell (run grabShell [Op.set_toplevel]) ⟨1, 2⟩).1.surface ≠
      (run grabShell [Op.set_toplevel]).surface ∧
    (move grabShell (run grabShell [Op.set_toplevel]) ⟨1, 2⟩).1.surface.state = FULLSCREEN ∧
    (resize grabShell (run grabShell [Op.set_toplevel]) ⟨1, 2⟩ 3).1.surface.state =
      FULLSCREEN := by
  decide

/-- Claim C14 as amended: `move` and `resize` return 0; in states NONE, TRANSIENT and XWAYLAND
they leave the world as it was; in states TOPLEVEL, MAXIMIZED and FULLSCREEN they emit exactly
one request (move with the seat and grab serial of the pointer, resize also with the edges),
followed only by the calls to the X window manager that the calls back of the shell produce.
The record is unchanged if the shell makes no `set_fullscreen` call back while the request is
delivered; if it does, the last time with argument `b`, the record on return is the record
before the call with `state` FULLSCREEN if `b` and TOPLEVEL if not, and `state_updated` true,
as that `set_fullscreen` call leaves them.  Nothing else of the world changes. -/
theorem move_resize_requests (sh : Shell) (w : World) (pointer : weston_pointer)
    (edges : Nat) :
    (move sh w pointer).2 = 0 ∧ (resize sh w pointer edges).2 = 0 ∧
    (isManaged w.surface.state = false →
      (move sh w pointer).1 = w ∧ (resize sh w pointer edges).1 = w) ∧
    (isManaged w.surface.state = true →
      ((∃ es, (move sh w pointer).1.trace =
          w.trace ++ Event.api_move pointer.seat pointer.grab_serial :: es ∧
          ∀ e ∈ es, isClientEvent e = true) ∧
        withState (move sh w pointer).1.surface w.surface.state w.surface.state_updated =
          w.surface ∧
        (fsOverride (sh (w.trace ++ [Event.api_move pointer.seat pointer.grab_serial])) = none →
          (move sh w pointer).1.surface = w.surface) ∧
        (∀ b, fsOverride (sh (w.trace ++
            [Event.api_move pointer.seat pointer.grab_serial])) = some b →
          (move sh w pointer).1.surface =
            { w.surface with
              state := if b = true then FULLSCREEN else TOPLEVEL
              state_updated := true }) ∧
        (move sh w pointer).1 =
          { w with
            trace := w.trace ++ Event.api_move pointer.seat pointer.grab_serial ::
              callEvents (sh (w.trace ++ [Event.api_move pointer.seat pointer.grab_serial]))
            surface := { w.surface with
              state := stateAfter
                (sh (w.trace ++ [Event.api_move pointer.seat pointer.grab_serial]))
                w.surface.state
              state_updated := w.surface.state_updated ||
                (fsOverride (sh (w.trace ++
                  [Event.api_move pointer.seat pointer.grab_serial]))).isSome } }) ∧
      ((∃ es, (resize sh w pointer edges).1.trace =
          w.trace ++ Event.api_resize pointer.seat pointer.grab_serial edges :: es ∧
          ∀ e ∈ es, isClientEvent e = true) ∧
        withState (resize sh w pointer edges).1.surface w.surface.state
          w.surface.state_updated = w.surface ∧
        (fsOverride (sh (w.trace ++
            [Event.api_resize pointer.seat pointer.grab_serial edges])) = none →
          (resize sh w pointer edges).1.surface = w.surface) ∧
        (∀ b, fsOverride (sh (w.trace ++
            [Event.api_resize pointer.seat pointer.grab_serial edges])) = some b →
          (resize sh w pointer edges).1.surface =
            { w.surface with
              state := if b = true then FULLSCREEN else TOPLEVEL
              state_updated := true }) ∧
        (resize sh w pointer edges).1 =
          { w with
            trace := w.trace ++ Event.api_resize pointer.seat pointer.grab_serial edges ::
              callEvents (sh (w.trace ++
                [Event.api_resize pointer.seat pointer.grab_serial edges]))
            surface := { w.surface with
              state := stateAfter
                (sh (w.trace ++ [Event.api_resize pointer.seat pointer.grab_serial edges]))
                w.surface.state
              state_updated := w.surface.state_updated ||
                (fsOverride (sh (w.trace ++
                  [Event.api_resize pointer.seat pointer.grab_serial edges]))).isSome } })) := by
  refine ⟨by unfold move; split_ifs <;> rfl, by unfold resize; split_ifs <;> rfl, ?_, ?_⟩
  · intro h
    have h2 : ¬ (w.surface.state = TOPLEVEL ∨ w.surface.state = MAXIMIZED ∨
        w.surface.state = FULLSCREEN) := by
      simpa [isManaged] using h
    simp [move, resize, h2]
  · intro h
    have h2 : w.surface.state = TOPLEVEL ∨ w.surface.state = MAXIMIZED ∨
        w.surface.state = FULLSCREEN := (managed_cases _).mp h
    simp only [move, resize, if_pos h2, notify_shell_eq, withState]
    refine ⟨⟨⟨_, rfl, callEvents_client _⟩, trivial, ?_, ?_, trivial⟩,
      ⟨⟨_, rfl, callEvents_client _⟩, trivial, ?_, ?_, trivial⟩⟩
    · intro ho
      simp [stateAfter_none _ _ ho, ho]
    · intro b ho
      simp [stateAfter, ho]
    · intro ho
      simp [stateAfter_none _ _ ho, ho]
    · intro b ho
      simp [stateAfter, ho]

/-- Witness for C14 as amended: a maximized window with a shell that never calls back, and a
toplevel window with a shell that calls `set_fullscreen(true)` back from its move and resize
callbacks. -/
theorem move_resize_requests_witness :
    isManaged (run quietShell [Op.set_maximized]).surface.state = true ∧
    (∃ es, (move quietShell (run quietShell [Op.set_maximized]) ⟨1, 2⟩).1.trace =
        (run quietShell [Op.set_maximized]).trace ++ Event.api_move 1 2 :: es ∧
        ∀ e ∈ es, isClientEvent e = true) ∧
    (move quietShell (run quietShell [Op.set_maximized]) ⟨1, 2⟩).1.surface =
      (run quietShell [Op.set_maximized]).surface ∧
    (resize quietShell (run quietShell [Op.set_maximized]) ⟨1, 2⟩ 3).1.surface =
      (run quietShell [Op.set_maximized]).surface ∧
    isManaged (run grabShell [Op.set_toplevel]).surface.state = true ∧
    fsOverride (grabShell ((run grabShell [Op.set_toplevel]).trace ++ [Event.api_move 1 2])) =
      some true ∧
    (move grabShell (run grabShell [Op.set_toplevel]) ⟨1, 2⟩).1.surface =
      { (run grabShell [Op.set_toplevel]).surface with
        state := if true = true then FULLSCREEN else TOPLEVEL
        state_updated := true } ∧
    (resize grabShell (run grabShell [Op.set_toplevel]) ⟨1, 2⟩ 3).1.surface =
      { (run grabShell [Op.set_toplevel]).surface with
        state := if true = true then FULLSCREEN else TOPLEVEL
        state_updated := true } :=
  ⟨by decide,
    ((move_resize_requests quietShell (run quietShell [Op.set_maximized]) ⟨1, 2⟩ 3).2.2.2
      (by decide)).1.1,
    ((move_resize_requests quietShell (run quietShell [Op.set_maximized]) ⟨1, 2⟩ 3).2.2.2
      (by decide)).1.2.2.1 rfl,
    ((move_resize_requests quietShell (run quietShell [Op.set_maximized]) ⟨1, 2⟩ 3).2.2.2
      (by decide)).2.2.2.1 rfl,
    by decide, by decide,
    ((move_resize_requests grabShell (run grabShell [Op.set_toplevel]) ⟨1, 2⟩ 3).2.2.2
      (by decide)).1.2.2.2.1 true (by decide),
    ((move_resize_requests grabShell (run grabShell [Op.set_toplevel]) ⟨1, 2⟩ 3).2.2.2
      (by decide)).2.2.2.2.1 true (by decide)⟩

theorem countP_client (p : Event → Bool) (hp : ∀ e, isClientEvent e = true → p e = false)
    (es : List Event) (hes : ∀ e ∈ es, isClientEvent e = true) : es.countP p = 0 := by
  rw [List.countP_eq_zero]
  intro e he hpe
  rw [hp e (hes e he)] at hpe
  simp at hpe

theorem committed_not_client (e : Event) (h : isClientEvent e = true) :
    isApiCommitted e = false := by
  cases e <;> simp_all [isClientEvent, isApiCommitted]

/-- Counterexample to C16: the shell calls `set_fullscreen(true)` back from its committed
callback; with no geometry staged, `committed` on an added toplevel record returns with
state FULLSCREEN. -/
theorem committed_lets_shell_change_state :
    (run lateShell [Op.set_toplevel]).surface.added = true ∧
    (run lateShell [Op.set_toplevel]).surface.has_next_geometry = false ∧
    (run lateShell [Op.set_toplevel]).surface.state = TOPLEVEL ∧
    (weston_desktop_xwayland_surface_committed lateShell (run lateShell [Op.set_toplevel])
      0 0).surface.state = FULLSCREEN := by
  decide

/-- Claim C16 as amended: `committed` sets `committed = true`; it emits exactly one committed
notification when `added` is true and none when it is false; and when `has_next_geometry` is
false the forwarded offset is exactly `(sx, sy)`, `prev_state`, `added`, `view` and the live
geometry are unchanged, and `state` is unchanged unless the record is added and the shell
calls `set_fullscreen` back while the committed notification is delivered. -/
theorem committed_notification (sh : Shell) (w : World) (sx sy : Int) :
    (weston_desktop_xwayland_surface_committed sh w sx sy).surface.committed = true ∧
    (emitted w (weston_desktop_xwayland_surface_committed sh w sx sy)).countP isApiCommitted =
      (if w.surface.added = true then 1 else 0) ∧
    (w.surface.has_next_geometry = false →
      (emitted w (weston_desktop_xwayland_surface_committed sh w sx sy)).filter isApiCommitted =
        (if w.surface.added = true then [Event.api_committed sx sy] else []) ∧
      (weston_desktop_xwayland_surface_committed sh w sx sy).surface.prev_state =
        w.surface.prev_state ∧
      (weston_desktop_xwayland_surface_committed sh w sx sy).surface.added = w.surface.added ∧
      (weston_desktop_xwayland_surface_committed sh w sx sy).surface.view = w.surface.view ∧
      (weston_desktop_xwayland_surface_committed sh w sx sy).geometry = w.geometry ∧
      ((w.surface.added = false ∨
          fsOverride (sh (w.trace ++ [Event.api_committed sx sy])) = none) →
        (weston_desktop_xwayland_surface_committed sh w sx sy).surface.state =
          w.surface.state)) := by
  have hc := countP_client isApiCommitted committed_not_client
  have hf := filter_client isApiCommitted committed_not_client
  refine ⟨?_, ?_, ?_⟩
  · cases hg : w.surface.has_next_geometry <;> cases ha : w.surface.added <;>
      simp only [weston_desktop_xwayland_surface_committed, notify_shell_eq, emit, hg, ha,
        weston_desktop_surface_set_geometry, weston_desktop_surface_get_geometry,
        Bool.false_eq_true, if_false, if_true] <;>
      split_ifs <;> rfl
  · cases hg : w.surface.has_next_geometry <;> cases ha : w.surface.added <;>
      simp only [weston_desktop_xwayland_surface_committed, notify_shell_eq, emit, hg, ha,
        weston_desktop_surface_set_geometry, weston_desktop_surface_get_geometry,
        Bool.false_eq_true, if_false, if_true] <;>
      split_ifs <;>
      first
      | (rw [emitted_append _ _ (_ ++ _) (by simp only [List.append_assoc]; rfl)]
         simp [List.countP_append, List.countP_cons, isApiCommitted,
           hc _ (callEvents_client _)])
      | (rw [emitted_append _ _ _ rfl]
         simp [List.countP_append, List.countP_cons, isApiCommitted,
           hc _ (callEvents_client _)])
      | (rw [emitted_append _ _ [] (by simp)]; simp)
  · intro hg
    cases ha : w.surface.added
    · simp only [weston_desktop_xwayland_surface_committed, notify_shell_eq, emit, hg, ha,
        Bool.false_eq_true, if_false]
      split_ifs with h1
      · refine ⟨?_, rfl, by simp, rfl, rfl, fun _ => rfl⟩
        rw [emitted_append _ _ _ rfl]
        simp [List.filter_cons, isApiCommitted]
      · refine ⟨?_, rfl, by simp, rfl, rfl, fun _ => rfl⟩
        rw [emitted_append _ _ [] (by simp)]
        rfl
    · simp only [weston_desktop_xwayland_surface_committed, notify_shell_eq, emit, hg, ha,
        Bool.false_eq_true, if_false, if_true]
      split_ifs with h1
      · refine ⟨?_, rfl, by simp, rfl, rfl, ?_⟩
        · rw [emitted_append _ _ (_ ++ _) (by simp only [List.append_assoc]; rfl)]
          simp [List.filter_append, List.filter_cons, isApiCommitted,
            hf _ (callEvents_client _)]
        · intro ho
          rcases ho with ho | ho
          · simp at ho
          · simp [stateAfter_none _ _ ho]
      · refine ⟨?_, rfl, by simp, rfl, rfl, ?_⟩
        · rw [emitted_append _ _ _ rfl]
          simp [List.filter_cons, isApiCommitted, hf _ (callEvents_client _)]
        · intro ho
          rcases ho with ho | ho
          · simp at ho
          · simp [stateAfter_none _ _ ho]

/-- Witness for C16 as amended: the first commit of a window that is not added. -/
theorem committed_notification_witness :
    initial.surface.has_next_geometry = false ∧
    (initial.surface.added = false ∨
      fsOverride (lateShell (initial.trace ++ [Event.api_committed 3 4])) = none) ∧
    (emitted initial (weston_desktop_xwayland_surface_committed lateShell initial 3 4)).filter
      isApiCommitted = [] ∧
    (weston_desktop_xwayland_surface_committed lateShell initial 3 4).surface.state =
      initial.surface.state :=
  ⟨rfl, Or.inl rfl,
    ((committed_notification lateShell initial 3 4).2.2 rfl).1,
    ((committed_notification lateShell initial 3 4).2.2 rfl).2.2.2.2.2 (Or.inl rfl)⟩

theorem stageAll_eq (rects : List weston_geometry) (w : World) :
    stageAll w rects =
      { w with surface := { w.surface with
          has_next_geometry := w.surface.has_next_geometry || !rects.isEmpty
          next_geometry := rects.getLast?.getD w.surface.next_geometry } } := by
  unfold stageAll
  induction rects using List.reverseRecOn with
  | nil => simp
  | append_singleton ts t ih =>
    rw [List.foldl_append, ih]
    simp [set_window_geometry]

/-- Claim C17: after one or more `set_window_geometry` calls, the last with rectangle `r`, the
next `committed(sx, sy)` sets the live geometry to `r`, clears `has_next_geometry` and sets
`prev_state` to the state the record has when the commit arrives, which is still its state on
return if the shell does not call `set_fullscreen` back; and if `state` differed from
`prev_state` before that commit, the offset forwarded to the shell (forwarded when the record
is added) is the raw `(sx, sy)`. -/
theorem staged_geometry_commit (sh : Shell) (w : World) (rects : List weston_geometry)
    (r : weston_geometry) (sx sy : Int) (hlast : rects.getLast? = some r) :
    (weston_desktop_xwayland_surface_committed sh (stageAll w rects) sx sy).geometry = r ∧
    (weston_desktop_xwayland_surface_committed sh (stageAll w rects) sx
      sy).surface.has_next_geometry = false ∧
    (weston_desktop_xwayland_surface_committed sh (stageAll w rects) sx sy).surface.prev_state =
      w.surface.state ∧
    ((∀ t b, ShellCall.set_fullscreen b ∉ sh t) →
      (weston_desktop_xwayland_surface_committed sh (stageAll w rects) sx
        sy).surface.prev_state =
      (weston_desktop_xwayland_surface_committed sh (stageAll w rects) sx sy).surface.state) ∧
    (w.surface.state ≠ w.surface.prev_state →
      (emitted (stageAll w rects)
        (weston_desktop_xwayland_surface_committed sh (stageAll w rects) sx sy)).filter
          isApiCommitted =
        (if w.surface.added = true then [Event.api_committed sx sy] else [])) := by
  have hf := filter_client isApiCommitted committed_not_client
  have hne : rects.isEmpty = false := by
    cases rects with
    | nil => simp at hlast
    | cons _ _ => rfl
  rw [stageAll_eq, hlast, hne]
  simp only [Bool.not_false, Bool.or_true, Option.getD_some]
  refine ⟨?_, ?_, ?_, ?_, ?_⟩
  · cases ha : w.surface.added <;>
      simp only [weston_desktop_xwayland_surface_committed, notify_shell_eq, emit, ha,
        weston_desktop_surface_set_geometry, weston_desktop_surface_get_geometry,
        Bool.false_eq_true, if_false, if_true] <;>
      split_ifs <;> rfl
  · cases ha : w.surface.added <;>
      simp only [weston_desktop_xwayland_surface_committed, notify_shell_eq, emit, ha,
        weston_desktop_surface_set_geometry, weston_desktop_surface_get_geometry,
        Bool.false_eq_true, if_false, if_true] <;>
      split_ifs <;> rfl
  · cases ha : w.surface.added <;>
      simp only [weston_desktop_xwayland_surface_committed, notify_shell_eq, emit, ha,
        weston_desktop_surface_set_geometry, weston_desktop_surface_get_geometry,
        Bool.false_eq_true, if_false, if_true] <;>
      split_ifs <;> rfl
  · intro hq
    have hno : ∀ t s, stateAfter (sh t) s = s := fun t s =>
      stateAfter_none _ _ (fsOverride_none_of_not_mem _ (hq t))
    cases ha : w.surface.added <;>
      simp only [weston_desktop_xwayland_surface_committed, notify_shell_eq, emit, ha,
        weston_desktop_surface_set_geometry, weston_desktop_surface_get_geometry,
        Bool.false_eq_true, if_false, if_true, hno] <;>
      split_ifs <;> rfl
  · intro hs
    cases ha : w.surface.added <;>
      simp only [weston_desktop_xwayland_surface_committed, notify_shell_eq, emit, ha,
        weston_desktop_surface_set_geometry, weston_desktop_surface_get_geometry,
        Bool.false_eq_true, if_false, if_true, if_neg hs] <;>
    split_ifs <;>
      first
      | (rw [emitted_append _ _ (_ ++ _) (by simp only [List.append_assoc]; rfl)]
         simp [List.filter_append, List.filter_cons, isApiCommitted,
           hf _ (callEvents_client _)])
      | (rw [emitted_append _ _ _ rfl]
         simp [List.filter_append, List.filter_cons, isApiCommitted,
           hf _ (callEvents_client _)])

/-- Witness for C17: create, `set_toplevel`, two staged rectangles, then the first commit with
raw offset (5,5), while `prev_state` is still NONE. -/
theorem staged_geometry_commit_witness :
    [(⟨1, 1, 20, 20⟩ : weston_geometry), ⟨10, 10, 100, 50⟩].getLast? =
      some ⟨10, 10, 100, 50⟩ ∧
    (run quietShell [Op.set_toplevel]).surface.state ≠
      (run quietShell [Op.set_toplevel]).surface.prev_state ∧
    (weston_desktop_xwayland_surface_committed quietShell
      (stageAll (run quietShell [Op.set_toplevel]) [⟨1, 1, 20, 20⟩, ⟨10, 10, 100, 50⟩])
      5 5).geometry = ⟨10, 10, 100, 50⟩ ∧
    (emitted (stageAll (run quietShell [Op.set_toplevel]) [⟨1, 1, 20, 20⟩, ⟨10, 10, 100, 50⟩])
      (weston_desktop_xwayland_surface_committed quietShell
        (stageAll (run quietShell [Op.set_toplevel]) [⟨1, 1, 20, 20⟩, ⟨10, 10, 100, 50⟩])
        5 5)).filter isApiCommitted =
      (if (run quietShell [Op.set_toplevel]).surface.added = true
        then [Event.api_committed 5 5] else []) :=
  ⟨rfl, by decide,
    (staged_geometry_commit quietShell (run quietShell [Op.set_toplevel])
      [⟨1, 1, 20, 20⟩, ⟨10, 10, 100, 50⟩] ⟨10, 10, 100, 50⟩ 5 5 rfl).1,
    (staged_geometry_commit quietShell (run quietShell [Op.set_toplevel])
      [⟨1, 1, 20, 20⟩, ⟨10, 10, 100, 50⟩] ⟨10, 10, 100, 50⟩ 5 5 rfl).2.2.2.2 (by decide)⟩

theorem leave_trace_upd (w : World) (u : Bool) :
    (change_state_leave { w with surface := { w.surface with state_updated := u } }).trace =
      (change_state_leave w).trace := by
  unfold change_state_leave
  split_ifs <;> rfl

theorem add_true_state (sh : Shell) (v : World) (hu : v.surface.state_updated = false) :
    (∀ b, fsOverride (sh (v.trace ++ [Event.unset_relative_to, Event.api_surface_added])) =
        some b →
      (change_state_add sh v true).surface.state = (if b = true then FULLSCREEN else TOPLEVEL) ∧
      (change_state_add sh v true).surface.state_updated = true) ∧
    (fsOverride (sh (v.trace ++ [Event.unset_relative_to, Event.api_surface_added])) = none →
      fsOverride (sh (v.trace ++ [Event.unset_relative_to, Event.api_surface_added] ++
        callEvents (sh (v.trace ++ [Event.unset_relative_to, Event.api_surface_added])) ++
        [Event.api_committed 0 0])) = none →
      (change_state_add sh v true).surface.state = v.surface.state ∧
      (change_state_add sh v true).surface.state_updated = false) := by
  simp only [change_state_add, notify_shell_eq, weston_desktop_surface_unset_relative_to, emit,
    if_true, List.append_assoc, List.singleton_append, List.cons_append, List.nil_append, hu]
  constructor
  · intro b hob
    cases b with
    | true =>
      have hs : stateAfter (sh (v.trace ++ [Event.unset_relative_to, Event.api_surface_added]))
          v.surface.state = FULLSCREEN := by
        simp only [stateAfter, hob, if_true]
      simp only [if_true]
      split_ifs with hc
      · rw [hs] at hc
        simp at hc
      · simp [hs, hob]
    | false =>
      have hs : stateAfter (sh (v.trace ++ [Event.unset_relative_to, Event.api_surface_added]))
          v.surface.state = TOPLEVEL := by
        simp [stateAfter, hob]
      simp only [Bool.false_eq_true, if_false]
      split_ifs with hc
      · rw [hs] at hc
        simp at hc
      · simp [hs, hob]
  · intro ho1 ho2
    have hs := stateAfter_none _ v.surface.state ho1
    split_ifs with hc
    · simp [hs, ho1, stateAfter_none _ _ ho2, ho2]
    · simp [hs, ho1]

/-- Counterexample to C12: the shell makes no call back during surface-added but calls
`set_fullscreen(true)` back during the synthesized commit of the same `change_state`; the
requested target MAXIMIZED is not the state when `change_state` returns. -/
theorem override_during_fake_commit :
    lateShell (addedTrace (run lateShell [Op.committed 0 0])) = [] ∧
    (weston_desktop_xwayland_surface_change_state lateShell (run lateShell [Op.committed 0 0])
      MAXIMIZED none none).surface.state = FULLSCREEN ∧
    (weston_desktop_xwayland_surface_change_state lateShell (run lateShell [Op.committed 0 0])
      MAXIMIZED none none).surface.added = true := by
  decide

/-- Claim C12 as amended: in a running program, let `change_state(record, target, NULL, NULL)`
with target TOPLEVEL, MAXIMIZED or FULLSCREEN emit surface-added (the record is not added and
its state is not the target).  If the shell calls `set_fullscreen` back during that
notification, the last time with argument `b`, the state on return is FULLSCREEN if `b` and
TOPLEVEL if not, and `added` is true.  If the shell calls `set_fullscreen` back neither during
that notification nor during the synthesized commit that may follow it, the state on return
is the target and `added` is true. -/
theorem shell_override_respected (sh : Shell) (w : World)
    (target : weston_desktop_xwayland_surface_state) (hok : w.failed = none)
    (hadd : w.surface.added = false) (hne : w.surface.state ≠ target)
    (ht : target = TOPLEVEL ∨ target = MAXIMIZED ∨ target = FULLSCREEN) :
    (∀ b, fsOverride (sh (addedTrace w)) = some b →
      (weston_desktop_xwayland_surface_change_state sh w target none none).surface.state =
        (if b = true then FULLSCREEN else TOPLEVEL) ∧
      (weston_desktop_xwayland_surface_change_state sh w target none none).surface.added =
        true) ∧
    ((∀ b, ShellCall.set_fullscreen b ∉ sh (addedTrace w)) →
      (∀ b, ShellCall.set_fullscreen b ∉ sh (fakeCommitTrace sh w)) →
      (weston_desktop_xwayland_surface_change_state sh w target none none).surface.state =
        target ∧
      (weston_desktop_xwayland_surface_change_state sh w target none none).surface.added =
        true) := by
  have htn : target ≠ NONE := by rcases ht with h | h | h <;> simp [h]
  have htx : target ≠ XWAYLAND := by rcases ht with h | h | h <;> simp [h]
  rw [change_state_phases sh w target none none hok htn (by simp) (by simp [hadd]) hne
    (fun _ => hadd)]
  have hb : (Option.isNone (none : Option Nat) && decide (target ≠ XWAYLAND)) = true := by
    simp [htx]
  rw [hb]
  obtain ⟨-, l2, l3, l4, -, -⟩ :=
    leave_frame { w with surface := { w.surface with state_updated := false } }
  have lt := leave_trace_upd w false
  simp only at l2 l3 l4
  unfold fakeCommitTrace addedTrace
  rw [← lt]
  generalize change_state_leave
    { w with surface := { w.surface with state_updated := false } } = v1 at *
  have he : ∀ v, change_state_enter v target = v := by
    intro v; simp [change_state_enter, htx]
  rw [he]
  have ha := add_added sh v1 true
  obtain ⟨a1, a2⟩ := add_true_state sh v1 l3
  generalize change_state_add sh v1 true = v2 at *
  obtain ⟨-, s2, -, -, s5, s6⟩ := assign_spec v2 target
  have hp : ∀ v, change_state_parent v none none = v := fun v => rfl
  rw [hp]
  constructor
  · intro b hob
    obtain ⟨q1, q2⟩ := a1 b hob
    exact ⟨by rw [s6 q2, q1], by rw [s2, ha]⟩
  · intro h1 h2
    have ho1 := fsOverride_none_of_not_mem _ h1
    have ho2 := fsOverride_none_of_not_mem _ h2
    obtain ⟨-, q2⟩ := a2 ho1 ho2
    exact ⟨s5 q2, by rw [s2, ha]⟩

/-- Witness for C12 as amended: the first `set_maximized` transition of a fresh record, with a
shell that calls `set_fullscreen(true)` back from surface-added, and with one that never
calls back. -/
theorem shell_override_respected_witness :
    initial.failed = none ∧ initial.surface.added = false ∧ initial.surface.state ≠ MAXIMIZED ∧
    fsOverride (eagerShell (addedTrace initial)) = some true ∧
    ((weston_desktop_xwayland_surface_change_state eagerShell initial MAXIMIZED none
        none).surface.state = (if true = true then FULLSCREEN else TOPLEVEL) ∧
      (weston_desktop_xwayland_surface_change_state eagerShell initial MAXIMIZED none
        none).surface.added = true) ∧
    ((weston_desktop_xwayland_surface_change_state quietShell initial MAXIMIZED none
        none).surface.state = MAXIMIZED ∧
      (weston_desktop_xwayland_surface_change_state quietShell initial MAXIMIZED none
        none).surface.added = true) :=
  ⟨rfl, rfl, by decide, by decide,
    (shell_override_respected eagerShell initial MAXIMIZED rfl rfl (by decide)
      (Or.inr (Or.inl rfl))).1 true (by decide),
    (shell_override_respected quietShell initial MAXIMIZED rfl rfl (by decide)
      (Or.inr (Or.inl rfl))).2 (by simp [quietShell]) (by simp [quietShell])⟩

theorem safe_congr (P : Prop) (w w' : World) (h : Safe P w)
    (ht : pairing w'.trace = pairing w.trace)
    (ha : w'.surface.added = w.surface.added)
    (hs : w'.surface.state = w.surface.state)
    (hv : w'.surface.view = w.surface.view)
    (hr : w'.relative_to = w.relative_to)
    (hf : w'.failed = w.failed) : Safe P w' := by
  obtain ⟨h1, h2, hm, h3⟩ := h
  refine ⟨(good_congr False w w' ⟨h1, fun f => f.elim⟩ ht ha hs hv hr).1, ?_, ?_, ?_⟩
  · rw [hf]; exact h2
  · rw [hs, ha]; exact hm
  · rw [hs, ha]; exact h3

theorem safe_emit (P : Prop) (w : World) (e : Event) (h : Safe P w)
    (he1 : e ≠ Event.api_surface_added) (he2 : e ≠ Event.api_surface_removed) :
    Safe P (emit w e) := by
  apply safe_congr P w _ h <;>
    simp [emit, pairing, List.foldl_append, track_neutral e _ he1 he2]

theorem safe_notify (P : Prop) (sh : Shell) (hP : P → Polite sh) (w : World) (e : Event)
    (h : Safe P w)
    (he1 : e ≠ Event.api_surface_added) (he2 : e ≠ Event.api_surface_removed) :
    Safe P (notify_shell sh w e) := by
  obtain ⟨h1, h2, hm, h3⟩ := h
  refine ⟨inv_notify sh w e h1 he1 he2, ?_, ?_, ?_⟩
  · rw [notify_shell_eq]; exact h2
  · obtain ⟨o, es, -, -, e1⟩ := notify_shell_spec sh w e
    rw [e1]
    rcases o with _ | _ | _
    · exact hm
    · intro hc; simp [overrideState] at hc
    · intro hc; simp [overrideState] at hc
  · intro hp
    obtain ⟨o, es, -, p1, e1⟩ := notify_shell_spec sh w e
    rw [e1]
    cases o with
    | none => exact h3 hp
    | some b =>
      intro _
      have hk := p1 (hP hp) rfl
      rw [pairing_append, List.foldl_cons, List.foldl_nil, track_neutral e _ he1 he2,
        h1.paired] at hk
      simpa using hk

theorem safe_whenOk (P : Prop) (w : World) (k : World → World) (h : Safe P w)
    (hk : ∀ v, Safe P v → v.failed = none → Safe P (k v)) : Safe P (whenOk w k) := by
  unfold whenOk
  split_ifs with hf
  · exact h
  · exact hk w h (by simpa using hf)

theorem xwayland_not_added (w : World) (h : Inv w) :
    w.surface.state = XWAYLAND → w.surface.added = false := by
  intro hs
  by_contra hc
  have := h.managed (by simpa using hc)
  simp [hs, isManaged] at this

/-- After `change_state`, a MAXIMIZED record is added, if that held before; and under a
polite shell a record in any managed state is added, if that held before. -/
theorem change_state_held (sh : Shell) (w : World)
    (target : weston_desktop_xwayland_surface_state) (parent : Option Nat)
    (offset : Option weston_coord_surface) (h : Inv w) (hok : w.failed = none)
    (hpar : target = TRANSIENT → parent.isSome = true)
    (q : weston_desktop_xwayland_surface_state → Prop)
    (hq : (∀ s, q s → isManaged s = true) ∧ (Polite sh ∨ (¬ q FULLSCREEN ∧ ¬ q TOPLEVEL)))
    (hh : q w.surface.state → w.surface.added = true) :
    q (weston_desktop_xwayland_surface_change_state sh w target parent
      offset).surface.state →
    (weston_desktop_xwayland_surface_change_state sh w target parent offset).surface.added =
      true := by
  obtain ⟨h1, h2, h3, h4⟩ := h
  by_cases hnone : target = NONE
  · have e : weston_desktop_xwayland_surface_change_state sh w target parent offset =
        assert_fail w Assertion.state_not_none := by
      unfold weston_desktop_xwayland_surface_change_state
      simp only [if_pos hnone]
    rw [e]; exact hh
  by_cases e1 : parent.isSome = true ∧ target ≠ TRANSIENT
  · have e : weston_desktop_xwayland_surface_change_state sh w target parent offset =
        assert_fail w Assertion.parent_implies_transient := by
      unfold weston_desktop_xwayland_surface_change_state
      simp only [if_neg hnone, if_pos e1]
    rw [e]; exact hh
  by_cases e2 : parent.isSome = true ∧ offset.isNone = true
  · have e : weston_desktop_xwayland_surface_change_state sh w target parent offset =
        assert_fail w Assertion.parent_implies_offset := by
      unfold weston_desktop_xwayland_surface_change_state
      simp only [if_neg hnone, if_neg e1, if_pos e2]
    rw [e]; exact hh
  have hpar2 : parent.isSome = true → target = TRANSIENT ∧ offset.isSome = true := by
    intro hq
    refine ⟨by_contra fun hc => e1 ⟨hq, hc⟩, ?_⟩
    cases offset with
    | none => exact absurd ⟨hq, rfl⟩ e2
    | some _ => rfl
  by_cases hfast : (parent.isNone && decide (target ≠ XWAYLAND)) = true ∧ w.surface.added = true
  · have e : weston_desktop_xwayland_surface_change_state sh w target parent offset =
        { w with surface := { w.surface with state := target } } := by
      unfold weston_desktop_xwayland_surface_change_state
      simp only [if_neg hnone, if_neg e1, if_neg e2, if_pos hfast]
    rw [e]
    exact fun _ => hfast.2
  have hx := xwayland_not_added w ⟨h1, h2, h3, h4⟩
  by_cases heq : w.surface.state = target
  · rw [change_state_same sh w target parent offset hok hnone hpar2 hfast heq]
    obtain ⟨-, p2, -, -⟩ :=
      parent_spec { w with surface := { w.surface with state_updated := false } } parent offset
    rw [p2]
    exact hh
  · rw [change_state_phases sh w target parent offset hok hnone hpar2 hfast heq hx]
    obtain ⟨l1, l2, l3, l4, l5, l6⟩ :=
      leave_frame { w with surface := { w.surface with state_updated := false } }
    simp only at l1 l2 l3 l4 l5 l6
    generalize change_state_leave
      { w with surface := { w.surface with state_updated := false } } = v1 at *
    obtain ⟨a1, a2, a3, a4, a5, a6, a7⟩ :=
      add_spec sh v1 (parent.isNone && decide (target ≠ XWAYLAND))
        (by rw [l6, l1]; exact h1) (by rw [l1]; exact hfast) l3
    have a0 := add_added sh v1 (parent.isNone && decide (target ≠ XWAYLAND))
    generalize change_state_add sh v1 (parent.isNone && decide (target ≠ XWAYLAND)) = v2 at *
    obtain ⟨n1, n2, n3, n4, n5, n6, n7⟩ :=
      enter_spec v2 target (by intro ht; rw [a0]; simp [ht])
    generalize change_state_enter v2 target = v3 at *
    obtain ⟨s1, s2, s3, s4, s5, s6⟩ := assign_spec v3 target
    generalize change_state_assign v3 target = v4 at *
    obtain ⟨p1, p2, p3, p4⟩ := parent_spec v4 parent offset
    generalize change_state_parent v4 parent offset = v5 at *
    intro hm
    rw [p2, s2, n2, a0]
    cases hb : (parent.isNone && decide (target ≠ XWAYLAND)) with
    | true => rfl
    | false =>
      exfalso
      have htm : isManaged target = false := by
        cases parent with
        | some _ => rw [(hpar2 rfl).1]; rfl
        | none =>
          have : target = XWAYLAND := by
            by_contra htx
            simp [htx] at hb
          rw [this]; rfl
      rw [p2] at hm
      cases hu : v3.surface.state_updated with
      | false =>
        rw [s5 hu] at hm
        have := hq.1 _ hm
        rw [htm] at this
        simp at this
      | true =>
        rcases hq.2 with hp | ⟨q1, q2⟩
        · have := a7 hp hb
          rw [← n4, hu] at this
          simp at this
        · rw [s6 hu, n3] at hm
          rcases a5 (by rw [← n4]; exact hu) with hs | hs
          · rw [hs] at hm; exact q1 hm
          · rw [hs] at hm; exact q2 hm

theorem safe_change_state (P : Prop) (sh : Shell) (hP : P → Polite sh) (w : World)
    (target : weston_desktop_xwayland_surface_state) (parent : Option Nat)
    (offset : Option weston_coord_surface) (h : Safe P w) (hok : w.failed = none)
    (hpar : target = TRANSIENT → parent.isSome = true) :
    Safe P (weston_desktop_xwayland_surface_change_state sh w target parent offset) := by
  refine ⟨(change_state_inv sh w target parent offset h.inv hok hpar).1, ?_, ?_, ?_⟩
  · rcases change_state_failed sh w target parent offset hok (xwayland_not_added w h.inv)
      with f | ⟨f, -⟩ | ⟨f, -⟩ | ⟨f, -⟩ | ⟨f, -⟩ <;> rw [f] <;> simp
  · exact change_state_held sh w target parent offset h.inv hok hpar (fun s => s = MAXIMIZED)
      ⟨fun s hs => by rw [hs]; rfl, Or.inr ⟨by simp, by simp⟩⟩ h.max_added
  · intro hp
    exact change_state_held sh w target parent offset h.inv hok hpar
      (fun s => isManaged s = true) ⟨fun _ hs => hs, Or.inl (hP hp)⟩ (h.held hp)

theorem safe_committed (P : Prop) (sh : Shell) (hP : P → Polite sh) (w : World) (sx sy : Int)
    (h : Safe P w) :
    Safe P (weston_desktop_xwayland_surface_committed sh w sx sy) := by
  have g1 : Safe P { w with surface := { w.surface with committed := true } } :=
    safe_congr P w _ h rfl rfl rfl rfl rfl rfl
  unfold weston_desktop_xwayland_surface_committed
  simp only
  split_ifs
  all_goals first
    | apply safe_emit P _ _ _ (by simp) (by simp)
    | skip
  all_goals first
    | apply safe_notify P sh hP _ _ _ (by simp) (by simp)
    | skip
  all_goals first
    | exact g1
    | (apply safe_congr P _ _ g1 <;>
        simp [weston_desktop_surface_set_geometry, emit, pairing, List.foldl_append, track])

theorem safe_set_fullscreen_notification (P : Prop) (w : World) (b : Bool) (h : Safe P w)
    (hk : P → pairing w.trace = some true) :
    Safe P (weston_desktop_xwayland_surface_set_fullscreen w b) := by
  refine ⟨(good_set_fullscreen_notification False w b ⟨h.inv, fun f => f.elim⟩
    (fun f => f.elim)).1, ?_, ?_, ?_⟩
  · simpa [weston_desktop_xwayland_surface_set_fullscreen, emit] using h.no_abort
  · cases b <;> simp [weston_desktop_xwayland_surface_set_fullscreen, emit]
  · intro hp _
    have hk2 := hk hp
    rw [h.inv.paired] at hk2
    simpa [weston_desktop_xwayland_surface_set_fullscreen, emit] using hk2

theorem safe_set_toplevel (P : Prop) (sh : Shell) (hP : P → Polite sh) (w : World)
    (h : Safe P w) (hok : w.failed = none) : Safe P (set_toplevel sh w) := by
  unfold set_toplevel
  apply safe_whenOk P _ _ (safe_change_state P sh hP w _ _ _ h hok (by simp))
  intro v hv _
  split_ifs
  · exact safe_notify P sh hP v (Event.api_fullscreen_requested false none) hv
      (by simp) (by simp)
  · exact hv

theorem safe_perform (P : Prop) (sh : Shell) (hP : P → Polite sh) (w : World) (op : Op)
    (h : Safe P w) (hok : w.failed = none) (ha : P → opAllowed w op = true) :
    Safe P (perform sh w op) := by
  cases op with
  | set_toplevel => exact safe_set_toplevel P sh hP w h hok
  | set_toplevel_with_position x y =>
    simp only [perform, set_toplevel_with_position]
    apply safe_whenOk P _ _ (safe_set_toplevel P sh hP w h hok)
    intro v hv _
    exact safe_notify P sh hP v _ hv (by simp) (by simp)
  | set_parent wparent =>
    simp only [perform, set_parent]
    split_ifs
    · exact h
    · exact safe_notify P sh hP w _ h (by simp) (by simp)
  | set_transient wparent offset =>
    simp only [perform, set_transient]
    split_ifs
    · exact h
    · exact safe_change_state P sh hP w _ _ _ h hok (by simp)
  | set_fullscreen output =>
    simp only [perform, set_fullscreen]
    apply safe_whenOk P _ _ (safe_change_state P sh hP w _ _ _ h hok (by simp))
    intro v hv _
    exact safe_notify P sh hP v _ hv (by simp) (by simp)
  | set_xwayland x y =>
    simp only [perform, set_xwayland]
    apply safe_whenOk P _ _ (safe_change_state P sh hP w _ _ _ h hok (by simp))
    intro v hv _
    exact safe_emit P v _ hv (by simp) (by simp)
  | move pointer =>
    simp only [perform, move]
    split_ifs
    · exact safe_notify P sh hP w _ h (by simp) (by simp)
    · exact h
  | resize pointer edges =>
    simp only [perform, resize]
    split_ifs
    · exact safe_notify P sh hP w _ h (by simp) (by simp)
    · exact h
  | set_title title => exact safe_emit P w _ h (by simp) (by simp)
  | set_window_geometry x y width height => exact safe_congr P w _ h rfl rfl rfl rfl rfl rfl
  | set_maximized =>
    simp only [perform, set_maximized]
    apply safe_whenOk P _ _ (safe_change_state P sh hP w _ _ _ h hok (by simp))
    intro v hv _
    exact safe_notify P sh hP v _ hv (by simp) (by simp)
  | set_minimized => exact safe_notify P sh hP w _ h (by simp) (by simp)
  | set_pid pid => exact safe_emit P w _ h (by simp) (by simp)
  | get_position => exact safe_notify P sh hP w _ h (by simp) (by simp)
  | committed sx sy => exact safe_committed P sh hP w sx sy h
  | shell_set_size width height => exact safe_emit P w _ h (by simp) (by simp)
  | shell_set_fullscreen b =>
    apply safe_set_fullscreen_notification P w b h
    intro hp
    simpa [opAllowed] using ha hp
  | shell_close => exact safe_emit P w _ h (by simp) (by simp)
  | shell_get_maximized => exact h
  | shell_get_fullscreen => exact h

theorem safe_step (P : Prop) (sh : Shell) (hP : P → Polite sh) (w : World) (op : Op)
    (h : Safe P w) (ha : P → opAllowed w op = true) :
    Safe P (step sh w op) := by
  unfold step whenOk
  split_ifs with hf
  · exact h
  · exact safe_perform P sh hP w op h (by simpa using hf) ha

theorem safe_foldl (P : Prop) (sh : Shell) (hP : P → Polite sh) (ops : List Op) :
    ∀ w, Safe P w → (P → politeRun sh w ops = true) → Safe P (ops.foldl (step sh) w) := by
  induction ops with
  | nil => intro w h _; exact h
  | cons op ops ih =>
    intro w h hr
    rw [List.foldl_cons]
    apply ih
    · exact safe_step P sh hP w op h (fun hp => by
        have := hr hp
        simp only [politeRun, Bool.and_eq_true] at this
        exact this.1)
    · intro hp
      have := hr hp
      simp only [politeRun, Bool.and_eq_true] at this
      exact this.2

theorem safe_initial (P : Prop) : Safe P initial :=
  ⟨inv_initial, by simp [initial], by simp [initial], by simp [initial, isManaged]⟩

theorem safe_run (sh : Shell) (ops : List Op) : Safe False (run sh ops) :=
  safe_foldl False sh (fun h => h.elim) ops initial (safe_initial False) (fun h => h.elim)

theorem safe_run_polite (sh : Shell) (ops : List Op) (hp : Polite sh)
    (hr : politeRun sh initial ops = true) : Safe True (run sh ops) :=
  safe_foldl True sh (fun _ => hp) ops initial (safe_initial True) (fun _ => hr)

/-- The leave assertion is live in the model: on a record that is XWAYLAND and added, which
no run reaches, `set_transient` stops at `assert(!surface->added)`. -/
theorem leave_assertion_fails_outside_reach :
    (set_transient quietShell
      { stagedWorld with surface := { stagedWorld.surface with state := XWAYLAND } }
      ⟨7, true⟩ ⟨1, 2, 7⟩).failed = some Assertion.leave_not_added := by
  decide

/-- Claim C18: at every state reached from `create_surface` by any sequence of outside calls,
whatever the shell calls back from inside its callbacks, neither of the two
`assert(!surface->added)` of `change_state` has failed. -/
theorem added_assertions_never_fail (sh : Shell) (ops : List Op) :
    (run sh ops).failed ≠ some Assertion.leave_not_added ∧
    (run sh ops).failed ≠ some Assertion.enter_not_added :=
  (safe_run sh ops).no_abort

/-- A `change_state` without parent to a managed target returns with the record added and
without parent relation, unless the record already is in the target state without being
added. -/
theorem change_state_adds (sh : Shell) (w : World)
    (target : weston_desktop_xwayland_surface_state) (h : Inv w) (hok : w.failed = none)
    (ht : isManaged target = true)
    (hh : w.surface.state = target → w.surface.added = true) :
    (weston_desktop_xwayland_surface_change_state sh w target none none).surface.added = true ∧
    (weston_desktop_xwayland_surface_change_state sh w target none none).relative_to = none ∧
    (weston_desktop_xwayland_surface_change_state sh w target none none).failed = none := by
  have htn : target ≠ NONE := by rintro rfl; simp [isManaged] at ht
  have htx : target ≠ XWAYLAND := by rintro rfl; simp [isManaged] at ht
  have htt : target ≠ TRANSIENT := by rintro rfl; simp [isManaged] at ht
  have hx := xwayland_not_added w h
  have hf := change_state_ok_of_no_parent sh w target hok hx htn
  have hi := (change_state_inv sh w target none none h hok (fun e => absurd e htt)).1
  have ha : (weston_desktop_xwayland_surface_change_state sh w target none none).surface.added
      = true := by
    by_cases hadd : w.surface.added = true
    · rw [change_state_fast_path sh w target hadd ht]
      exact hadd
    · have hne : w.surface.state ≠ target := fun e => hadd (hh e)
      rw [change_state_phases sh w target none none hok htn (by simp) (by simp [hadd]) hne hx]
      obtain ⟨-, p2, -, -⟩ := parent_spec
        (change_state_assign (change_state_enter (change_state_add sh
          (change_state_leave { w with surface := { w.surface with state_updated := false } })
          (Option.isNone (none : Option Nat) && decide (target ≠ XWAYLAND))) target) target)
        none none
      obtain ⟨-, s2, -, -, -, -⟩ := assign_spec
        (change_state_enter (change_state_add sh
          (change_state_leave { w with surface := { w.surface with state_updated := false } })
          (Option.isNone (none : Option Nat) && decide (target ≠ XWAYLAND))) target) target
      obtain ⟨-, n2, -, -, -, -, -⟩ := enter_spec
        (change_state_add sh
          (change_state_leave { w with surface := { w.surface with state_updated := false } })
          (Option.isNone (none : Option Nat) && decide (target ≠ XWAYLAND))) target
        (fun e => absurd e htx)
      rw [p2, s2, n2, add_added]
      simp [htx]
  exact ⟨ha, hi.no_parent ha, hf⟩

theorem notify_frame (sh : Shell) (w : World) (e : Event) :
    (notify_shell sh w e).surface.added = w.surface.added ∧
    (notify_shell sh w e).relative_to = w.relative_to ∧
    (notify_shell sh w e).failed = w.failed := by
  rw [notify_shell_eq]
  exact ⟨rfl, rfl, rfl⟩

/-- Counterexample to C19: after a `set_fullscreen(false)` notification of the shell on a
record that was never added, `set_toplevel` finds the state already TOPLEVEL and returns
without adding the window (and without clearing the parent relation of a transient window);
likewise `set_fullscreen` after a `set_fullscreen(true)` notification. -/
theorem managed_request_without_add :
    ((run quietShell [Op.shell_set_fullscreen false, Op.set_toplevel]).failed = none ∧
      (run quietShell [Op.shell_set_fullscreen false, Op.set_toplevel]).surface.added = false) ∧
    ((run quietShell [Op.shell_set_fullscreen true, Op.set_fullscreen none]).failed = none ∧
      (run quietShell [Op.shell_set_fullscreen true, Op.set_fullscreen none]).surface.added =
        false) ∧
    ((run quietShell [Op.set_transient ⟨7, true⟩ ⟨1, 2, 7⟩, Op.shell_set_fullscreen false,
        Op.set_toplevel]).failed = none ∧
      (run quietShell [Op.set_transient ⟨7, true⟩ ⟨1, 2, 7⟩, Op.shell_set_fullscreen false,
        Op.set_toplevel]).relative_to = some (7, 1, 2)) := by
  decide

/-- Claim C19 as amended: called at any reachable state of a running program, `set_maximized`
returns with `added = true` and no parent relation active; so do `set_toplevel` and
`set_fullscreen` when the shell delivers its `set_fullscreen` notification only for a window
it currently holds. -/
theorem managed_requests_add (sh : Shell) (ops : List Op) (output : Option Nat)
    (hok : (run sh ops).failed = none) :
    ((set_maximized sh (run sh ops)).surface.added = true ∧
      (set_maximized sh (run sh ops)).relative_to = none ∧
      (set_maximized sh (run sh ops)).failed = none) ∧
    (Polite sh → politeRun sh initial ops = true →
      ((set_toplevel sh (run sh ops)).surface.added = true ∧
        (set_toplevel sh (run sh ops)).relative_to = none ∧
        (set_toplevel sh (run sh ops)).failed = none) ∧
      ((set_fullscreen sh (run sh ops) output).surface.added = true ∧
        (set_fullscreen sh (run sh ops) output).relative_to = none ∧
        (set_fullscreen sh (run sh ops) output).failed = none)) := by
  have hinv := inv_run sh ops
  constructor
  · obtain ⟨c1, c2, c3⟩ := change_state_adds sh (run sh ops) MAXIMIZED hinv hok rfl
      (safe_run sh ops).max_added
    unfold set_maximized
    rw [whenOk_of_ok _ _ c3]
    obtain ⟨f1, f2, f3⟩ := notify_frame sh
      (weston_desktop_xwayland_surface_change_state sh (run sh ops) MAXIMIZED none none)
      (Event.api_maximized_requested true)
    exact ⟨by rw [f1, c1], by rw [f2, c2], by rw [f3, c3]⟩
  · intro hp hr
    have hheld := (safe_run_polite sh ops hp hr).held trivial
    constructor
    · obtain ⟨c1, c2, c3⟩ := change_state_adds sh (run sh ops) TOPLEVEL hinv hok rfl
        (fun e => hheld (by rw [e]; rfl))
      unfold set_toplevel
      rw [whenOk_of_ok _ _ c3]
      split_ifs
      · obtain ⟨f1, f2, f3⟩ := notify_frame sh
          (weston_desktop_xwayland_surface_change_state sh (run sh ops) TOPLEVEL none none)
          (Event.api_fullscreen_requested false none)
        exact ⟨by rw [f1, c1], by rw [f2, c2], by rw [f3, c3]⟩
      · exact ⟨c1, c2, c3⟩
    · obtain ⟨c1, c2, c3⟩ := change_state_adds sh (run sh ops) FULLSCREEN hinv hok rfl
        (fun e => hheld (by rw [e]; rfl))
      unfold set_fullscreen
      rw [whenOk_of_ok _ _ c3]
      obtain ⟨f1, f2, f3⟩ := notify_frame sh
        (weston_desktop_xwayland_surface_change_state sh (run sh ops) FULLSCREEN none none)
        (Event.api_fullscreen_requested true output)
      exact ⟨by rw [f1, c1], by rw [f2, c2], by rw [f3, c3]⟩

/-- Witness for C19 as amended: a transient window made toplevel, under a shell that calls
back whenever it holds the window. -/
theorem managed_requests_add_witness :
    (run eagerShell [Op.set_transient ⟨7, true⟩ ⟨1, 2, 7⟩]).failed = none ∧
    Polite eagerShell ∧
    politeRun eagerShell initial [Op.set_transient ⟨7, true⟩ ⟨1, 2, 7⟩] = true ∧
    ((set_maximized eagerShell
        (run eagerShell [Op.set_transient ⟨7, true⟩ ⟨1, 2, 7⟩])).surface.added = true ∧
      (set_maximized eagerShell
        (run eagerShell [Op.set_transient ⟨7, true⟩ ⟨1, 2, 7⟩])).relative_to = none ∧
      (set_maximized eagerShell
        (run eagerShell [Op.set_transient ⟨7, true⟩ ⟨1, 2, 7⟩])).failed = none) ∧
    ((set_toplevel eagerShell
        (run eagerShell [Op.set_transient ⟨7, true⟩ ⟨1, 2, 7⟩])).surface.added = true ∧
      (set_toplevel eagerShell
        (run eagerShell [Op.set_transient ⟨7, true⟩ ⟨1, 2, 7⟩])).relative_to = none ∧
      (set_toplevel eagerShell
        (run eagerShell [Op.set_transient ⟨7, true⟩ ⟨1, 2, 7⟩])).failed = none) :=
  ⟨by decide, polite_eager, by decide,
    (managed_requests_add eagerShell [Op.set_transient ⟨7, true⟩ ⟨1, 2, 7⟩] none
      (by decide)).1,
    ((managed_requests_add eagerShell [Op.set_transient ⟨7, true⟩ ⟨1, 2, 7⟩] none
      (by decide)).2 polite_eager (by decide)).1⟩

end Xwayland
